import Mathlib

/-!
Shallow embedding of the `simple-color-palette` JavaScript package
(`src/index.js`): a `Color` stored in linear sRGB, a `ColorPalette`
container, hex-notation parsing, and JSON (de)serialization.

Modelling conventions:
* JavaScript numbers are modelled as exact real numbers (`ℝ`).  The
  transfer functions use `Real.rpow` for the JS `**` operator.  Binary
  rounding of IEEE-754 doubles is outside the model; the non-finite
  values NaN, Infinity and -Infinity are modelled by the separate
  `JSNumber` layer near the end of the file, which lifts the write paths
  to numbers that may be non-finite with their ECMAScript semantics.
* JSON values are modelled by the inductive `Json`, with numbers as exact
  rationals (`ℚ`).  Property access on parsed values (`palette.colors`,
  `color.components`, `color.name`) is `Json.getProp`, which yields `none`
  for JavaScript `undefined` (missing key or non-object receiver).
* Thrown errors become `Except String` results carrying the message text;
  the `TypeError` / `Error` class distinction is dropped (only messages
  are specified).
* JS bitwise operators in `fromHexNumber` act on 32-bit signed integers;
  on the range `0 ≤ n ≤ 0xFFFFFFFF` actually reached by the code the
  results coincide with plain `Nat` shift/and, which is what we use.
-/

/-- JS `Math.round`: round half toward positive infinity, `⌊x + 1/2⌋`. -/
noncomputable def mathRound (x : ℝ) : ℤ := ⌊x + 1/2⌋

/-- src/index.js lines 1-4: `roundToFourDecimals`,
`Math.round(number * 10000) / 10000`. -/
noncomputable def roundToFourDecimals (number : ℝ) : ℝ :=
  (mathRound (number * 10000) : ℝ) / 10000

/-- The same rounding, landing in `ℚ`; used where the rounded value is
emitted into a JSON document. -/
noncomputable def roundToFourDecimalsQ (number : ℝ) : ℚ :=
  (mathRound (number * 10000) : ℚ) / 10000

/-- src/index.js lines 6-12: `sRGBToLinear`, the piecewise sRGB decoding
transfer function. -/
noncomputable def sRGBToLinear (srgb : ℝ) : ℝ :=
  if srgb ≤ 0.04045 then srgb / 12.92
  else ((srgb + 0.055) / 1.055) ^ (2.4 : ℝ)

/-- src/index.js lines 14-20: `linearToSRGB`, the piecewise sRGB encoding
transfer function. -/
noncomputable def linearToSRGB (linear : ℝ) : ℝ :=
  if linear ≤ 0.0031308 then linear * 12.92
  else (linear ^ ((1 : ℝ) / 2.4)) * 1.055 - 0.055

/-- src/index.js line 22: `clampOpacity`, `Math.max(0, Math.min(1, value))`. -/
noncomputable def clampOpacity (value : ℝ) : ℝ := max 0 (min 1 value)

/-- JSON value trees, as produced by `JSON.parse`.  Numbers are exact
rationals. -/
inductive Json where
  | null : Json
  | bool (b : Bool) : Json
  | num (q : ℚ) : Json
  | str (s : String) : Json
  | arr (elems : List Json) : Json
  | obj (fields : List (String × Json)) : Json

/-- JS property read `j[key]` on a parsed JSON value: `none` models
`undefined` (missing key, or receiver that is not an object).  With
duplicate keys `JSON.parse` keeps the last occurrence. -/
def Json.getProp (j : Json) (key : String) : Option Json :=
  match j with
  | .obj fields => (fields.reverse.find? (fun f => f.1 == key)).map (fun f => f.2)
  | _ => none

/-- JS truthiness of a JSON value (`NaN`, absent from the model, is the
only falsy number besides `0`). -/
def Json.truthy : Json → Bool
  | .null => false
  | .bool b => b
  | .num q => q != 0
  | .str s => s != ""
  | .arr _ => true
  | .obj _ => true

/-- JS truthiness of a possibly-`undefined` value. -/
def jsTruthy : Option Json → Bool
  | none => false
  | some j => j.truthy

/-- The `Color` state: src/index.js lines 56-61.  The only persisted
numeric state is the three linear channels plus opacity; `name` holds the
arbitrary JS value assigned to the public `name` field. -/
structure Color where
  name : Option Json
  linearRed : ℝ
  linearGreen : ℝ
  linearBlue : ℝ
  opacity : ℝ

/-- src/index.js lines 63-83, the `Color` constructor.  `validateComponent`
(lines 50-54) only checks `typeof value === 'number'`, which every `ℝ`
satisfies, so no failure case remains in the model. -/
noncomputable def Color.construct (name : Option Json) (red green blue opacity : ℝ)
    (isLinear : Bool) : Color :=
  ⟨name,
   roundToFourDecimals (if isLinear then red else sRGBToLinear red),
   roundToFourDecimals (if isLinear then green else sRGBToLinear green),
   roundToFourDecimals (if isLinear then blue else sRGBToLinear blue),
   roundToFourDecimals (clampOpacity opacity)⟩

/-- src/index.js lines 147-153, `set red`: converts to linear with no
rounding. -/
noncomputable def Color.setRed (c : Color) (value : ℝ) : Color :=
  ⟨c.name, sRGBToLinear value, c.linearGreen, c.linearBlue, c.opacity⟩

/-- src/index.js lines 159-165, `set green`. -/
noncomputable def Color.setGreen (c : Color) (value : ℝ) : Color :=
  ⟨c.name, c.linearRed, sRGBToLinear value, c.linearBlue, c.opacity⟩

/-- src/index.js lines 171-177, `set blue`. -/
noncomputable def Color.setBlue (c : Color) (value : ℝ) : Color :=
  ⟨c.name, c.linearRed, c.linearGreen, sRGBToLinear value, c.opacity⟩

/-- src/index.js lines 183-189, `set opacity`: clamps to [0,1], stores
without rounding. -/
noncomputable def Color.setOpacity (c : Color) (value : ℝ) : Color :=
  ⟨c.name, c.linearRed, c.linearGreen, c.linearBlue, clampOpacity value⟩

/-- src/index.js lines 141-143, `get red`. -/
noncomputable def Color.getRed (c : Color) : ℝ := linearToSRGB c.linearRed

/-- src/index.js lines 210-218: the `components` array built by
`Color.toJSON`; the rounded opacity is pushed only when the stored
opacity differs from `1`. -/
noncomputable def Color.componentsJson (c : Color) : List Json :=
  [Json.num (roundToFourDecimalsQ c.linearRed),
   Json.num (roundToFourDecimalsQ c.linearGreen),
   Json.num (roundToFourDecimalsQ c.linearBlue)]
  ++ (if c.opacity ≠ 1 then [Json.num (roundToFourDecimalsQ c.opacity)] else [])

/-- src/index.js lines 209-226, `Color.toJSON`: `{components}` first, then
`name` added only when truthy. -/
noncomputable def Color.toJSON (c : Color) : Json :=
  Json.obj ([("components", Json.arr c.componentsJson)]
    ++ (if jsTruthy c.name then [("name", c.name.getD Json.null)] else []))

/-- The `ColorPalette` state: src/index.js lines 229-231. -/
structure ColorPalette where
  name : Option Json
  colors : List Color

/-- src/index.js lines 233-251, the `ColorPalette` constructor.  The
`Array.isArray` and `instanceof Color` checks cannot fail in the typed
model; `[...colors]` (a shallow copy) is the identity on immutable
lists. -/
noncomputable def ColorPalette.construct (name : Option Json) (colors : List Color) :
    ColorPalette :=
  ⟨name, colors⟩

/-- src/index.js lines 281-286, `ColorPalette.toJSON`: `name` spread in
first only when truthy, then `colors`. -/
noncomputable def ColorPalette.toJSON (p : ColorPalette) : Json :=
  Json.obj ((if jsTruthy p.name then [("name", p.name.getD Json.null)] else [])
    ++ [("colors", Json.arr (p.colors.map Color.toJSON))])

/-- src/index.js lines 277-279, `serialize`: `JSON.stringify(this, undefined,
'\t')`, i.e. the text of the `toJSON` tree.  `JSON.stringify` followed by
`JSON.parse` is the identity on these finite trees, so serialization is
modelled at the tree level. -/
noncomputable def ColorPalette.serialize (p : ColorPalette) : Json := p.toJSON

/-- src/index.js lines 33-37: the per-component check inside
`validateColorComponent`: `typeof component !== 'number' || component < 0`
throws `Error('Component values must be numbers')`. -/
def validateComponentValue (component : Json) : Except String Unit :=
  match component with
  | Json.num q => if q < 0 then Except.error "Component values must be numbers" else Except.ok ()
  | _ => Except.error "Component values must be numbers"

/-- src/index.js lines 24-38, `validateColorComponent`. -/
def validateColorComponent (color : Json) : Except String Unit :=
  match color.getProp "components" with
  | some (Json.arr comps) =>
    if comps.length ≠ 3 ∧ comps.length ≠ 4 then
      Except.error "Components must have 3 or 4 values"
    else comps.forM validateComponentValue
  | _ => Except.error "Components must be an array"

/-- src/index.js lines 40-48, `validatePalette`. -/
def validatePalette (palette : Json) : Except String Unit :=
  match palette.getProp "colors" with
  | some (Json.arr colors) => colors.forM validateColorComponent
  | _ => Except.error "Colors must be an array"

/-- Numeric value of a JSON component entry; the default branch is dead
code after `validateColorComponent` has succeeded. -/
def jsNumberValue (j : Json) : ℚ :=
  match j with
  | Json.num q => q
  | _ => 0

/-- src/index.js lines 261-272: build one `Color` from a validated color
entry: destructure `[red, green, blue, opacity = 1]` from `components`,
round each to four decimals, construct with `isLinear: true`. -/
noncomputable def colorOfJson (color : Json) : Color :=
  let comps : List Json :=
    match color.getProp "components" with
    | some (Json.arr l) => l
    | _ => []
  let red : ℝ := ((jsNumberValue (comps.getD 0 Json.null) : ℚ) : ℝ)
  let green : ℝ := ((jsNumberValue (comps.getD 1 Json.null) : ℚ) : ℝ)
  let blue : ℝ := ((jsNumberValue (comps.getD 2 Json.null) : ℚ) : ℝ)
  let opacity : ℝ :=
    match comps.get? 3 with
    | some j => ((jsNumberValue j : ℚ) : ℝ)
    | none => 1
  Color.construct (color.getProp "name") (roundToFourDecimals red)
    (roundToFourDecimals green) (roundToFourDecimals blue)
    (roundToFourDecimals opacity) true

/-- src/index.js lines 261-274: map the validated entries and rebuild the
palette with the top-level `name`. -/
noncomputable def paletteOfJson (parsed : Json) : ColorPalette :=
  let colorsJson : List Json :=
    match parsed.getProp "colors" with
    | some (Json.arr l) => l
    | _ => []
  ColorPalette.construct (parsed.getProp "name") (colorsJson.map colorOfJson)

/-- src/index.js lines 257-275 after `JSON.parse`: validate the parsed
tree, then rebuild. -/
noncomputable def ColorPalette.deserializeJson (parsed : Json) : Except String ColorPalette :=
  match validatePalette parsed with
  | Except.error e => Except.error e
  | Except.ok _ => Except.ok (paletteOfJson parsed)

/-- Hex digits accepted by the `/^[\da-f]{6}([\da-f]{2})?$/i` test and by
`Number.parseInt(..., 16)`. -/
def isHexDigitJS (c : Char) : Bool :=
  c.isDigit || (('a' ≤ c) && (c ≤ 'f')) || (('A' ≤ c) && (c ≤ 'F'))

/-- Numeric value of a hex digit (0 for other characters; only applied to
hex digits). -/
def hexDigitValue (c : Char) : Nat :=
  if c.isDigit then c.toNat - '0'.toNat
  else if ('a' ≤ c) && (c ≤ 'f') then c.toNat - 'a'.toNat + 10
  else if ('A' ≤ c) && (c ≤ 'F') then c.toNat - 'A'.toNat + 10
  else 0

/-- `Number.parseInt(s, 16)` on an all-hex-digit string (at most 8 digits
here, so the double-precision result is exact). -/
def parseHexNat (cs : List Char) : Nat :=
  cs.foldl (fun acc c => 16 * acc + hexDigitValue c) 0

/-- Characters removed by JS `String.prototype.trim` (ASCII whitespace
plus the common Unicode space characters). -/
def jsWhitespaceChar (c : Char) : Bool :=
  (c == ' ') || (c == '\t') || (c == '\n') || (c == '\r') ||
  (c == '\x0b') || (c == '\x0c') || (c == ' ') || (c == '﻿')

/-- JS `hex.trim()`. -/
def jsTrim (cs : List Char) : List Char :=
  ((cs.dropWhile jsWhitespaceChar).reverse.dropWhile jsWhitespaceChar).reverse

/-- src/index.js lines 102-139, `Color.fromHexNumber`, up to the final
`new Color({...})` call: the guard `!Number.isInteger(hex) || hex < 0`,
then dispatch on magnitude, producing the `(red, green, blue, opacity)`
arguments handed to the constructor. -/
def fromHexNumberComponents (hex : ℚ) : Except String (ℚ × ℚ × ℚ × ℚ) :=
  if hex.den ≠ 1 ∨ hex < 0 then Except.error "Invalid hex value"
  else
    let n : ℕ := hex.num.toNat
    if n ≤ 0xFFF then
      Except.ok ((((n >>> 8) &&& 0xF : ℕ) : ℚ) / 15,
                 (((n >>> 4) &&& 0xF : ℕ) : ℚ) / 15,
                 ((n &&& 0xF : ℕ) : ℚ) / 15, 1)
    else if n ≤ 0xFFFF then
      Except.ok ((((n >>> 12) &&& 0xF : ℕ) : ℚ) / 15,
                 (((n >>> 8) &&& 0xF : ℕ) : ℚ) / 15,
                 (((n >>> 4) &&& 0xF : ℕ) : ℚ) / 15,
                 ((n &&& 0xF : ℕ) : ℚ) / 15)
    else if n ≤ 0xFFFFFF then
      Except.ok ((((n >>> 16) &&& 0xFF : ℕ) : ℚ) / 255,
                 (((n >>> 8) &&& 0xFF : ℕ) : ℚ) / 255,
                 ((n &&& 0xFF : ℕ) : ℚ) / 255, 1)
    else if n ≤ 0xFFFFFFFF then
      Except.ok ((((n >>> 24) &&& 0xFF : ℕ) : ℚ) / 255,
                 (((n >>> 16) &&& 0xFF : ℕ) : ℚ) / 255,
                 (((n >>> 8) &&& 0xFF : ℕ) : ℚ) / 255,
                 ((n &&& 0xFF : ℕ) : ℚ) / 255)
    else Except.error "Invalid hex value"

/-- src/index.js lines 136-138: the constructor call closing
`fromHexNumber` (non-linear path, no name). -/
noncomputable def Color.fromHexNumber (hex : ℚ) : Except String Color :=
  (fromHexNumberComponents hex).map
    (fun t => Color.construct none t.1 t.2.1 t.2.2.1 t.2.2.2 false)

/-- src/index.js lines 85-100, `Color.fromHexString`, up to the
`fromHexNumber` dispatch: trim, strip the optional `#`, double each digit
of a 3- or 4-character form, test `/^[\da-f]{6}([\da-f]{2})?$/i`, then
`Number.parseInt(expanded, 16)`. -/
def fromHexStringComponents (hex : String) : Except String (ℚ × ℚ × ℚ × ℚ) :=
  let str := jsTrim hex.data
  let withoutHash :=
    match str with
    | '#' :: rest => rest
    | _ => str
  let expanded :=
    if withoutHash.length = 3 ∨ withoutHash.length = 4 then
      (withoutHash.map (fun c => [c, c])).flatten
    else withoutHash
  if (expanded.length = 6 ∨ expanded.length = 8) ∧ expanded.all isHexDigitJS then
    fromHexNumberComponents ((parseHexNat expanded : ℕ) : ℚ)
  else Except.error "Invalid hex color format"

/-- src/index.js lines 85-100 composed with the constructor call. -/
noncomputable def Color.fromHexString (hex : String) : Except String Color :=
  (fromHexStringComponents hex).map
    (fun t => Color.construct none t.1 t.2.1 t.2.2.1 t.2.2.2 false)

/-- Modelled from the spec: the platform `JSON.parse` rejection message.
The repository calls the host's `JSON.parse` (not part of src/); the spec
only requires the failure to mention "not valid JSON" (V8 wording). -/
def invalidJsonMsg : String := "Unexpected token, the given text is not valid JSON"

/-- JSON insignificant whitespace. -/
def jsonWs (c : Char) : Bool :=
  (c == ' ') || (c == '\t') || (c == '\n') || (c == '\r')

/-- Drop leading JSON whitespace. -/
def skipWs (cs : List Char) : List Char := cs.dropWhile jsonWs

/-- Modelled from the spec: body of a JSON string literal (after the
opening quote), with the standard escapes.  Returns the decoded
characters and the remainder after the closing quote. -/
def parseJsonStringAux : Nat → List Char → Except String (List Char × List Char)
  | 0, _ => Except.error invalidJsonMsg
  | _ + 1, [] => Except.error invalidJsonMsg
  | fuel + 1, c :: rest =>
    if c = '"' then Except.ok ([], rest)
    else if c = '\\' then
      match rest with
      | [] => Except.error invalidJsonMsg
      | e :: rest2 =>
        let esc : Option (Char × List Char) :=
          if e = '"' then some ('"', rest2)
          else if e = '\\' then some ('\\', rest2)
          else if e = '/' then some ('/', rest2)
          else if e = 'b' then some ('\x08', rest2)
          else if e = 'f' then some ('\x0c', rest2)
          else if e = 'n' then some ('\n', rest2)
          else if e = 'r' then some ('\r', rest2)
          else if e = 't' then some ('\t', rest2)
          else if e = 'u' then
            match rest2 with
            | h1 :: h2 :: h3 :: h4 :: rest3 =>
              if [h1, h2, h3, h4].all isHexDigitJS then
                some (Char.ofNat (parseHexNat [h1, h2, h3, h4]), rest3)
              else none
            | _ => none
          else none
        match esc with
        | some (ch, r) => (parseJsonStringAux fuel r).map (fun p => (ch :: p.1, p.2))
        | none => Except.error invalidJsonMsg
    else (parseJsonStringAux fuel rest).map (fun p => (c :: p.1, p.2))

/-- Digits prefix of a character list. -/
def takeDigits (cs : List Char) : List Char × List Char :=
  (cs.takeWhile Char.isDigit, cs.dropWhile Char.isDigit)

/-- Decimal value of a digit list. -/
def digitsToNat (ds : List Char) : Nat :=
  ds.foldl (fun a c => 10 * a + (c.toNat - '0'.toNat)) 0

/-- Modelled from the spec: a JSON number literal
(`-? int frac? exp?`, no leading zeros), read into an exact rational. -/
def parseJsonNumber (cs : List Char) : Except String (ℚ × List Char) :=
  let signedTail : Bool × List Char :=
    match cs with
    | '-' :: r => (true, r)
    | _ => (false, cs)
  let neg := signedTail.1
  match signedTail.2 with
  | [] => Except.error invalidJsonMsg
  | d :: _ =>
    if ¬ d.isDigit then Except.error invalidJsonMsg
    else
      let intDs := (takeDigits signedTail.2).1
      let cs2 := (takeDigits signedTail.2).2
      if d = '0' ∧ intDs.length ≠ 1 then Except.error invalidJsonMsg
      else
        let intVal : ℚ := (digitsToNat intDs : ℚ)
        let withFrac : Except String (ℚ × List Char) :=
          match cs2 with
          | '.' :: r =>
            let fr := (takeDigits r).1
            if fr.isEmpty then Except.error invalidJsonMsg
            else Except.ok (intVal + (digitsToNat fr : ℚ) / ((10 : ℚ) ^ fr.length),
                            (takeDigits r).2)
          | _ => Except.ok (intVal, cs2)
        match withFrac with
        | Except.error e => Except.error e
        | Except.ok (mant, cs3) =>
          match cs3 with
          | e :: r =>
            if e = 'e' ∨ e = 'E' then
              let signedExp : ℤ × List Char :=
                match r with
                | '+' :: rr => (1, rr)
                | '-' :: rr => (-1, rr)
                | _ => (1, r)
              let eds := (takeDigits signedExp.2).1
              if eds.isEmpty then Except.error invalidJsonMsg
              else Except.ok ((if neg then -mant else mant) *
                                (10 : ℚ) ^ (signedExp.1 * (digitsToNat eds : ℤ)),
                              (takeDigits signedExp.2).2)
            else Except.ok (if neg then -mant else mant, cs3)
          | [] => Except.ok (if neg then -mant else mant, [])

mutual

/-- Modelled from the spec: one JSON value (ECMA-404 grammar), fuelled to
make the recursion structural; the fuel chosen in `jsonParse` never runs
out on inputs the grammar accepts. -/
def parseJsonValue : Nat → List Char → Except String (Json × List Char)
  | 0, _ => Except.error invalidJsonMsg
  | fuel + 1, cs =>
    match skipWs cs with
    | [] => Except.error invalidJsonMsg
    | c :: rest =>
      if c = '\x7b' then parseJsonObjectBody fuel rest
      else if c = '[' then parseJsonArrayBody fuel rest
      else if c = '"' then
        (parseJsonStringAux (rest.length + 1) rest).map
          (fun p => (Json.str (String.mk p.1), p.2))
      else if c = 't' then
        match rest with
        | 'r' :: 'u' :: 'e' :: r => Except.ok (Json.bool true, r)
        | _ => Except.error invalidJsonMsg
      else if c = 'f' then
        match rest with
        | 'a' :: 'l' :: 's' :: 'e' :: r => Except.ok (Json.bool false, r)
        | _ => Except.error invalidJsonMsg
      else if c = 'n' then
        match rest with
        | 'u' :: 'l' :: 'l' :: r => Except.ok (Json.null, r)
        | _ => Except.error invalidJsonMsg
      else if c = '-' ∨ c.isDigit then
        (parseJsonNumber (c :: rest)).map (fun p => (Json.num p.1, p.2))
      else Except.error invalidJsonMsg

/-- Modelled from the spec: the inside of a JSON array, after `[`. -/
def parseJsonArrayBody : Nat → List Char → Except String (Json × List Char)
  | 0, _ => Except.error invalidJsonMsg
  | fuel + 1, cs =>
    match skipWs cs with
    | ']' :: rest => Except.ok (Json.arr [], rest)
    | _ => parseJsonArrayItems fuel cs []

/-- Modelled from the spec: comma-separated JSON array elements. -/
def parseJsonArrayItems : Nat → List Char → List Json → Except String (Json × List Char)
  | 0, _, _ => Except.error invalidJsonMsg
  | fuel + 1, cs, acc =>
    match parseJsonValue fuel cs with
    | Except.error e => Except.error e
    | Except.ok (v, rest) =>
      match skipWs rest with
      | ',' :: r2 => parseJsonArrayItems fuel r2 (acc ++ [v])
      | ']' :: r2 => Except.ok (Json.arr (acc ++ [v]), r2)
      | _ => Except.error invalidJsonMsg

/-- Modelled from the spec: the inside of a JSON object, after the opening
brace. -/
def parseJsonObjectBody : Nat → List Char → Except String (Json × List Char)
  | 0, _ => Except.error invalidJsonMsg
  | fuel + 1, cs =>
    match skipWs cs with
    | '\x7d' :: rest => Except.ok (Json.obj [], rest)
    | _ => parseJsonObjectItems fuel cs []

/-- Modelled from the spec: comma-separated `"key": value` members. -/
def parseJsonObjectItems : Nat → List Char → List (String × Json) →
    Except String (Json × List Char)
  | 0, _, _ => Except.error invalidJsonMsg
  | fuel + 1, cs, acc =>
    match skipWs cs with
    | '"' :: rest =>
      match parseJsonStringAux (rest.length + 1) rest with
      | Except.error e => Except.error e
      | Except.ok (key, r2) =>
        match skipWs r2 with
        | ':' :: r3 =>
          match parseJsonValue fuel r3 with
          | Except.error e => Except.error e
          | Except.ok (v, r4) =>
            match skipWs r4 with
            | ',' :: r5 => parseJsonObjectItems fuel r5 (acc ++ [(String.mk key, v)])
            | '\x7d' :: r5 => Except.ok (Json.obj (acc ++ [(String.mk key, v)]), r5)
            | _ => Except.error invalidJsonMsg
        | _ => Except.error invalidJsonMsg
    | _ => Except.error invalidJsonMsg

end

/-- Modelled from the spec: the platform `JSON.parse` called by
`ColorPalette.deserialize` (src/index.js line 258).  Parses one JSON value
and requires only whitespace to follow; every rejection carries the
"not valid JSON" message required by the spec. -/
def jsonParse (text : String) : Except String Json :=
  match parseJsonValue (2 * text.length + 16) text.data with
  | Except.ok (j, rest) =>
    if (skipWs rest).isEmpty then Except.ok j else Except.error invalidJsonMsg
  | Except.error e => Except.error e

/-- src/index.js lines 257-275, `ColorPalette.deserialize` on the raw
document text. -/
noncomputable def ColorPalette.deserialize (text : String) : Except String ColorPalette :=
  match jsonParse text with
  | Except.error e => Except.error e
  | Except.ok parsed => ColorPalette.deserializeJson parsed

/-- Decidable equality of `Except` results, used to evaluate the
computable layers on concrete inputs. -/
instance exceptDecEq {ε α : Type} [DecidableEq ε] [DecidableEq α] : DecidableEq (Except ε α) :=
  fun x y =>
    match x, y with
    | Except.ok a, Except.ok b =>
      if h : a = b then isTrue (by rw [h]) else isFalse (fun hh => by cases hh; exact h rfl)
    | Except.error e, Except.error f =>
      if h : e = f then isTrue (by rw [h]) else isFalse (fun hh => by cases hh; exact h rfl)
    | Except.ok _, Except.error _ => isFalse (fun hh => by cases hh)
    | Except.error _, Except.ok _ => isFalse (fun hh => by cases hh)

theorem mathRound_eq (x : ℝ) (z : ℤ) (h₁ : (z : ℝ) ≤ x + 1/2) (h₂ : x + 1/2 < z + 1) :
    mathRound x = z := by
  rw [mathRound, Int.floor_eq_iff]
  exact ⟨h₁, h₂⟩

theorem mathRound_intCast (z : ℤ) : mathRound (z : ℝ) = z := by
  apply mathRound_eq
  · linarith
  · linarith

theorem roundToFourDecimals_def (x : ℝ) :
    roundToFourDecimals x = (mathRound (x * 10000) : ℝ) / 10000 := rfl

theorem roundToFourDecimals_idem (x : ℝ) :
    roundToFourDecimals (roundToFourDecimals x) = roundToFourDecimals x := by
  rw [roundToFourDecimals, roundToFourDecimals]
  have h : (mathRound (x * 10000) : ℝ) / 10000 * 10000 = (mathRound (x * 10000) : ℝ) := by
    field_simp
  rw [h, mathRound_intCast]

theorem roundToFourDecimalsQ_cast (x : ℝ) :
    ((roundToFourDecimalsQ x : ℚ) : ℝ) = roundToFourDecimals x := by
  rw [roundToFourDecimalsQ, roundToFourDecimals]
  push_cast
  ring

theorem mathRound_nonneg {x : ℝ} (h : 0 ≤ x) : 0 ≤ mathRound x := by
  rw [mathRound]
  exact Int.le_floor.mpr (by push_cast; linarith)

theorem roundToFourDecimals_nonneg {x : ℝ} (h : 0 ≤ x) : 0 ≤ roundToFourDecimals x := by
  rw [roundToFourDecimals]
  have := mathRound_nonneg (x := x * 10000) (by positivity)
  positivity

theorem roundToFourDecimalsQ_nonneg {x : ℝ} (h : 0 ≤ x) : 0 ≤ roundToFourDecimalsQ x := by
  rw [roundToFourDecimalsQ]
  have := mathRound_nonneg (x := x * 10000) (by positivity)
  positivity

theorem roundToFourDecimals_le_one {x : ℝ} (h : x ≤ 1) : roundToFourDecimals x ≤ 1 := by
  rw [roundToFourDecimals]
  have hm : mathRound (x * 10000) ≤ 10000 := by
    rw [mathRound]
    have h2 : ⌊x * 10000 + 1/2⌋ ≤ ⌊(10000 : ℝ) + 1/2⌋ := Int.floor_le_floor (by linarith)
    have h3 : ⌊(10000 : ℝ) + 1/2⌋ = (10000 : ℤ) := by
      rw [Int.floor_eq_iff]
      norm_num
    omega
  have : (mathRound (x * 10000) : ℝ) ≤ 10000 := by exact_mod_cast hm
  linarith

theorem sRGBToLinear_nonneg {s : ℝ} (h : 0 ≤ s) : 0 ≤ sRGBToLinear s := by
  rw [sRGBToLinear]
  split
  · positivity
  · have hb : (0 : ℝ) ≤ (s + 0.055) / 1.055 := div_nonneg (by linarith) (by norm_num)
    exact Real.rpow_nonneg hb _

theorem clampOpacity_nonneg (v : ℝ) : 0 ≤ clampOpacity v := le_max_left 0 _

theorem clampOpacity_le_one (v : ℝ) : clampOpacity v ≤ 1 := by
  rw [clampOpacity]
  rcases le_total v 1 with h | h
  · simp [min_eq_right h]
    rcases le_total 0 v with h0 | h0 <;> simp [max_eq_right, max_eq_left, h0, h]
  · simp [min_eq_left h]

theorem clampOpacity_of_mem {v : ℝ} (h0 : 0 ≤ v) (h1 : v ≤ 1) : clampOpacity v = v := by
  rw [clampOpacity, min_eq_right h1, max_eq_right h0]

theorem roundToFourDecimals_one : roundToFourDecimals (1 : ℝ) = 1 := by
  rw [roundToFourDecimals]
  have : mathRound ((1 : ℝ) * 10000) = 10000 := by
    apply mathRound_eq <;> norm_num
  rw [this]
  norm_num

/-- src/index.js lines 200-207, `get linearComponents`: a snapshot
`(red, green, blue, opacity)` taken directly from stored state. -/
noncomputable def Color.linearComponents (c : Color) : ℝ × ℝ × ℝ × ℝ :=
  (c.linearRed, c.linearGreen, c.linearBlue, c.opacity)

/-- C8: constructing a linear color with red 0.12345, green 0.1235,
blue 0.12344, opacity 0.12349 stores linearComponents
(0.1235, 0.1235, 0.1234, 0.1235); the value exactly at the .5 boundary of
the fourth decimal digit (red = 0.12345) rounds up to 0.1235. -/
theorem C8_rounding_boundary :
    (Color.construct none 0.12345 0.1235 0.12344 0.12349 true).linearComponents =
      (0.1235, 0.1235, 0.1234, 0.1235) := by
  have hr : roundToFourDecimals (0.12345 : ℝ) = 0.1235 := by
    rw [roundToFourDecimals, mathRound_eq ((0.12345 : ℝ) * 10000) 1235 (by norm_num) (by norm_num)]
    norm_num
  have hg : roundToFourDecimals (0.1235 : ℝ) = 0.1235 := by
    rw [roundToFourDecimals, mathRound_eq ((0.1235 : ℝ) * 10000) 1235 (by norm_num) (by norm_num)]
    norm_num
  have hb : roundToFourDecimals (0.12344 : ℝ) = 0.1234 := by
    rw [roundToFourDecimals, mathRound_eq ((0.12344 : ℝ) * 10000) 1234 (by norm_num) (by norm_num)]
    norm_num
  have hcl : clampOpacity (0.12349 : ℝ) = 0.12349 :=
    clampOpacity_of_mem (by norm_num) (by norm_num)
  have ho : roundToFourDecimals (0.12349 : ℝ) = 0.1235 := by
    rw [roundToFourDecimals, mathRound_eq ((0.12349 : ℝ) * 10000) 1235 (by norm_num) (by norm_num)]
    norm_num
  simp only [Color.linearComponents, Color.construct, if_true, hcl]
  rw [hr, hg, hb, ho]

/-- C7 (amended): the opacity setter clamps to [0,1] and stores the
clamped value exactly, with no rounding: above 1 stores 1, below 0
stores 0, and values in [0,1] are stored unchanged. -/
theorem C7_opacity_setter_clamps (c : Color) (v : ℝ) :
    (1 < v → (c.setOpacity v).opacity = 1) ∧
    (v < 0 → (c.setOpacity v).opacity = 0) ∧
    (0 ≤ v → v ≤ 1 → (c.setOpacity v).opacity = v) := by
  refine ⟨fun h => ?_, fun h => ?_, fun h0 h1 => ?_⟩
  · simp only [Color.setOpacity, clampOpacity]
    rw [min_eq_left (le_of_lt h), max_eq_right (by norm_num)]
  · simp only [Color.setOpacity, clampOpacity]
    rw [min_eq_right (by linarith), max_eq_left (le_of_lt h)]
  · simp only [Color.setOpacity]
    exact clampOpacity_of_mem h0 h1

/-- Witness for C7: setting opacity to 2 stores 1. -/
theorem C7_opacity_setter_clamps_witness :
    (1 : ℝ) < 2 ∧ ((Color.construct none 0 0 0 1 true).setOpacity 2).opacity = 1 :=
  ⟨by norm_num, (C7_opacity_setter_clamps (Color.construct none 0 0 0 1 true) 2).1 (by norm_num)⟩

/-- Counterexample to C7 as stated: 0.12345 lies in [0,1] but the setter
stores it without rounding, so the stored opacity is not the
four-decimal rounding the claim requires. -/
theorem C7_counterexample :
    (0 : ℝ) ≤ 0.12345 ∧ (0.12345 : ℝ) ≤ 1 ∧
    ((Color.construct none 0 0 0 1 true).setOpacity 0.12345).opacity ≠
      roundToFourDecimals 0.12345 := by
  refine ⟨by norm_num, by norm_num, ?_⟩
  have hstore : ((Color.construct none 0 0 0 1 true).setOpacity 0.12345).opacity
      = (0.12345 : ℝ) := by
    simp only [Color.setOpacity]
    exact clampOpacity_of_mem (by norm_num) (by norm_num)
  have hround : roundToFourDecimals (0.12345 : ℝ) = 0.1235 := by
    rw [roundToFourDecimals, mathRound_eq ((0.12345 : ℝ) * 10000) 1235 (by norm_num) (by norm_num)]
    norm_num
  rw [hstore, hround]
  norm_num

/-- C3 (amended): constructor writes always persist four-decimal values
(10000 times each stored linear channel is an integer), while the
per-channel setters store the converted value exactly, with no
rounding. -/
theorem C3_write_rounding :
    (∀ (name : Option Json) (r g b o : ℝ) (lin : Bool),
      (∃ k : ℤ, (Color.construct name r g b o lin).linearRed * 10000 = k) ∧
      (∃ k : ℤ, (Color.construct name r g b o lin).linearGreen * 10000 = k) ∧
      (∃ k : ℤ, (Color.construct name r g b o lin).linearBlue * 10000 = k)) ∧
    (∀ (c : Color) (v : ℝ),
      (c.setRed v).linearRed = sRGBToLinear v ∧
      (c.setGreen v).linearGreen = sRGBToLinear v ∧
      (c.setBlue v).linearBlue = sRGBToLinear v) := by
  constructor
  · intro name r g b o lin
    refine ⟨⟨mathRound ((if lin then r else sRGBToLinear r) * 10000), ?_⟩,
            ⟨mathRound ((if lin then g else sRGBToLinear g) * 10000), ?_⟩,
            ⟨mathRound ((if lin then b else sRGBToLinear b) * 10000), ?_⟩⟩ <;>
    · simp only [Color.construct, roundToFourDecimals]
      field_simp
  · intro c v
    exact ⟨rfl, rfl, rfl⟩

/-- Counterexample to C3 as stated: after `color.red = 0.04` the stored
linear value is `0.04 / 12.92`, which is not equal to its own
four-decimal rounding, so setter writes do not round. -/
theorem C3_counterexample :
    ((Color.construct none 0 0 0 1 true).setRed 0.04).linearRed ≠
      roundToFourDecimals (sRGBToLinear 0.04) := by
  have hlin : sRGBToLinear (0.04 : ℝ) = 0.04 / 12.92 := by
    rw [sRGBToLinear, if_pos (by norm_num)]
  have hstore : ((Color.construct none 0 0 0 1 true).setRed 0.04).linearRed
      = sRGBToLinear (0.04 : ℝ) := rfl
  have hround : roundToFourDecimals ((0.04 : ℝ) / 12.92) = 0.0031 := by
    rw [roundToFourDecimals,
      mathRound_eq ((0.04 : ℝ) / 12.92 * 10000) 31 (by norm_num) (by norm_num)]
    norm_num
  rw [hstore, hlin, hround]
  norm_num

/-- C6: the serialized `components` array has a fourth (alpha) entry
exactly when the stored opacity is not 1: with opacity 1 it is exactly the
three rounded linear channels, otherwise it additionally ends with the
rounded opacity. -/
theorem C6_alpha_presence (c : Color) :
    c.toJSON.getProp "components" = some (Json.arr c.componentsJson) ∧
    (c.componentsJson.length = 4 ↔ c.opacity ≠ 1) ∧
    (c.opacity = 1 → c.componentsJson =
      [Json.num (roundToFourDecimalsQ c.linearRed),
       Json.num (roundToFourDecimalsQ c.linearGreen),
       Json.num (roundToFourDecimalsQ c.linearBlue)]) ∧
    (c.opacity ≠ 1 → c.componentsJson =
      [Json.num (roundToFourDecimalsQ c.linearRed),
       Json.num (roundToFourDecimalsQ c.linearGreen),
       Json.num (roundToFourDecimalsQ c.linearBlue),
       Json.num (roundToFourDecimalsQ c.opacity)]) := by
  refine ⟨?_, ?_, fun h => ?_, fun h => ?_⟩
  · by_cases hn : jsTruthy c.name
    · simp [Color.toJSON, Json.getProp, hn]
    · simp [Color.toJSON, Json.getProp, hn]
  · by_cases h : c.opacity = 1
    · simp [Color.componentsJson, h]
    · simp [Color.componentsJson, h]
  · simp [Color.componentsJson, h]
  · simp [Color.componentsJson, h]

/-- Witness for C6: a color stored with opacity 1 serializes only the
three channel entries. -/
theorem C6_alpha_presence_witness :
    (Color.construct none 0 0 0 1 true).opacity = 1 ∧
    (Color.construct none 0 0 0 1 true).componentsJson =
      [Json.num (roundToFourDecimalsQ (Color.construct none 0 0 0 1 true).linearRed),
       Json.num (roundToFourDecimalsQ (Color.construct none 0 0 0 1 true).linearGreen),
       Json.num (roundToFourDecimalsQ (Color.construct none 0 0 0 1 true).linearBlue)] := by
  have hop : (Color.construct none 0 0 0 1 true).opacity = 1 := by
    show roundToFourDecimals (clampOpacity 1) = 1
    rw [clampOpacity_of_mem (by norm_num) (by norm_num), roundToFourDecimals_one]
  exact ⟨hop, (C6_alpha_presence (Color.construct none 0 0 0 1 true)).2.2.1 hop⟩

theorem nat_and_15 (m : ℕ) : m &&& 15 = m % 16 := by
  have h : (15 : ℕ) = 2 ^ 4 - 1 := by norm_num
  rw [h, Nat.and_pow_two_sub_one_eq_mod]

theorem nat_and_255 (m : ℕ) : m &&& 255 = m % 256 := by
  have h : (255 : ℕ) = 2 ^ 8 - 1 := by norm_num
  rw [h, Nat.and_pow_two_sub_one_eq_mod]

theorem nat_shr_div (m k : ℕ) : m >>> k = m / 2 ^ k := Nat.shiftRight_eq_div_pow m k

theorem rat_toNat_cast {h : ℚ} (hden : h.den = 1) (h0 : 0 ≤ h) :
    ((h.num.toNat : ℕ) : ℚ) = h := by
  have h1 : ((h.num : ℤ) : ℚ) = h := by
    conv_rhs => rw [← Rat.num_div_den h]
    rw [hden]
    norm_num
  have h2 : 0 ≤ h.num := Rat.num_nonneg.mpr h0
  calc ((h.num.toNat : ℕ) : ℚ) = ((h.num.toNat : ℤ) : ℚ) := by push_cast; ring
    _ = ((h.num : ℤ) : ℚ) := by rw [Int.toNat_of_nonneg h2]
    _ = h := h1

/-- C9: `fromHexNumber` fails with "Invalid hex value" exactly on negative,
non-integer, or above-0xFFFFFFFF inputs; every other input is dispatched
by magnitude (≤ 0xFFF as 4-bit RGB over 15, ≤ 0xFFFF as 4-bit RGBA,
≤ 0xFFFFFF as 8-bit RGB over 255, ≤ 0xFFFFFFFF as 8-bit RGBA). -/
theorem C9_hex_number_dispatch (h : ℚ) :
    (fromHexNumberComponents h = Except.error "Invalid hex value" ↔
      h.den ≠ 1 ∨ h < 0 ∨ 4294967295 < h) ∧
    (h.den = 1 → 0 ≤ h →
      (h.num.toNat ≤ 4095 →
        fromHexNumberComponents h = Except.ok
          (((h.num.toNat / 256 % 16 : ℕ) : ℚ) / 15,
           ((h.num.toNat / 16 % 16 : ℕ) : ℚ) / 15,
           ((h.num.toNat % 16 : ℕ) : ℚ) / 15, 1)) ∧
      (4095 < h.num.toNat → h.num.toNat ≤ 65535 →
        fromHexNumberComponents h = Except.ok
          (((h.num.toNat / 4096 % 16 : ℕ) : ℚ) / 15,
           ((h.num.toNat / 256 % 16 : ℕ) : ℚ) / 15,
           ((h.num.toNat / 16 % 16 : ℕ) : ℚ) / 15,
           ((h.num.toNat % 16 : ℕ) : ℚ) / 15)) ∧
      (65535 < h.num.toNat → h.num.toNat ≤ 16777215 →
        fromHexNumberComponents h = Except.ok
          (((h.num.toNat / 65536 % 256 : ℕ) : ℚ) / 255,
           ((h.num.toNat / 256 % 256 : ℕ) : ℚ) / 255,
           ((h.num.toNat % 256 : ℕ) : ℚ) / 255, 1)) ∧
      (16777215 < h.num.toNat → h.num.toNat ≤ 4294967295 →
        fromHexNumberComponents h = Except.ok
          (((h.num.toNat / 16777216 % 256 : ℕ) : ℚ) / 255,
           ((h.num.toNat / 65536 % 256 : ℕ) : ℚ) / 255,
           ((h.num.toNat / 256 % 256 : ℕ) : ℚ) / 255,
           ((h.num.toNat % 256 : ℕ) : ℚ) / 255))) := by
  have hguard : ∀ (hden : h.den = 1) (h0 : 0 ≤ h), ¬ (h.den ≠ 1 ∨ h < 0) := by
    intro hden h0
    push_neg
    exact ⟨hden, h0⟩
  have hshift : ∀ m k : ℕ, (m >>> k) &&& 15 = m / 2 ^ k % 16 := by
    intro m k
    rw [nat_shr_div, nat_and_15]
  have hshift8 : ∀ m k : ℕ, (m >>> k) &&& 255 = m / 2 ^ k % 256 := by
    intro m k
    rw [nat_shr_div, nat_and_255]
  constructor
  · constructor
    · intro hres
      by_contra hcon
      push_neg at hcon
      obtain ⟨hden', h0', hle'⟩ := hcon
      have hden : h.den = 1 := hden'
      have h0 : 0 ≤ h := h0'
      have hn : (h.num.toNat : ℚ) = h := rat_toNat_cast hden h0
      have hnle : h.num.toNat ≤ 4294967295 := by
        have : ((h.num.toNat : ℕ) : ℚ) ≤ 4294967295 := by rw [hn]; exact hle'
        exact_mod_cast this
      rw [fromHexNumberComponents, if_neg (hguard hden h0)] at hres
      by_cases h1 : h.num.toNat ≤ 4095
      · rw [if_pos h1] at hres
        exact absurd hres (by simp)
      · rw [if_neg h1] at hres
        by_cases h2 : h.num.toNat ≤ 65535
        · rw [if_pos h2] at hres
          exact absurd hres (by simp)
        · rw [if_neg h2] at hres
          by_cases h3 : h.num.toNat ≤ 16777215
          · rw [if_pos h3] at hres
            exact absurd hres (by simp)
          · rw [if_neg h3, if_pos hnle] at hres
            exact absurd hres (by simp)
    · intro hcond
      rcases hcond with hden | hlt | hmax
      · rw [fromHexNumberComponents, if_pos (Or.inl hden)]
      · rw [fromHexNumberComponents, if_pos (Or.inr hlt)]
      · by_cases hden : h.den = 1
        · have h0 : 0 ≤ h := le_trans (by norm_num) (le_of_lt hmax)
          have hn : (h.num.toNat : ℚ) = h := rat_toNat_cast hden h0
          have hngt : 4294967295 < h.num.toNat := by
            have : (4294967295 : ℚ) < ((h.num.toNat : ℕ) : ℚ) := by rw [hn]; exact hmax
            exact_mod_cast this
          rw [fromHexNumberComponents, if_neg (hguard hden h0), if_neg (by omega),
            if_neg (by omega), if_neg (by omega), if_neg (by omega)]
        · rw [fromHexNumberComponents, if_pos (Or.inl hden)]
  · intro hden h0
    refine ⟨fun h1 => ?_, fun h1lo h1 => ?_, fun h2lo h2 => ?_, fun h3lo h3 => ?_⟩
    · rw [fromHexNumberComponents, if_neg (hguard hden h0), if_pos h1]
      have e1 := hshift h.num.toNat 8
      have e2 := hshift h.num.toNat 4
      have e3 := nat_and_15 h.num.toNat
      norm_num at e1 e2
      rw [e1, e2, e3]
    · rw [fromHexNumberComponents, if_neg (hguard hden h0), if_neg (by omega), if_pos h1]
      have e1 := hshift h.num.toNat 12
      have e2 := hshift h.num.toNat 8
      have e3 := hshift h.num.toNat 4
      have e4 := nat_and_15 h.num.toNat
      norm_num at e1 e2 e3
      rw [e1, e2, e3, e4]
    · rw [fromHexNumberComponents, if_neg (hguard hden h0), if_neg (by omega),
        if_neg (by omega), if_pos h2]
      have e1 := hshift8 h.num.toNat 16
      have e2 := hshift8 h.num.toNat 8
      have e3 := nat_and_255 h.num.toNat
      norm_num at e1 e2
      rw [e1, e2, e3]
    · rw [fromHexNumberComponents, if_neg (hguard hden h0), if_neg (by omega),
        if_neg (by omega), if_neg (by omega), if_pos h3]
      have e1 := hshift8 h.num.toNat 24
      have e2 := hshift8 h.num.toNat 16
      have e3 := hshift8 h.num.toNat 8
      have e4 := nat_and_255 h.num.toNat
      norm_num at e1 e2 e3
      rw [e1, e2, e3, e4]

/-- Witness for C9: 255 = 0xFF is an integer in [0, 0xFFF], decoded as
4-bit channels 0, 15, 15. -/
theorem C9_hex_number_dispatch_witness :
    (255 : ℚ).den = 1 ∧ (0 : ℚ) ≤ 255 ∧ (255 : ℚ).num.toNat ≤ 4095 ∧
    fromHexNumberComponents 255 = Except.ok
      ((((255 : ℚ).num.toNat / 256 % 16 : ℕ) : ℚ) / 15,
       (((255 : ℚ).num.toNat / 16 % 16 : ℕ) : ℚ) / 15,
       (((255 : ℚ).num.toNat % 16 : ℕ) : ℚ) / 15, 1) :=
  ⟨by decide, by decide, by decide,
   ((C9_hex_number_dispatch 255).2 (by decide) (by decide)).1 (by decide)⟩

/-- Modelled from the spec: the digit-grouping decoding the spec assigns
to hex strings (optional leading `#`; 3- and 4-digit forms double each
digit into a byte; 6-digit forms are three successive bytes over 255 with
opacity 1; 8-digit forms add an alpha byte). -/
def specHexStringDecode (hex : String) : Option (ℚ × ℚ × ℚ × ℚ) :=
  let s :=
    match hex.data with
    | '#' :: rest => rest
    | l => l
  let expanded := if s.length = 3 ∨ s.length = 4 then (s.map (fun c => [c, c])).flatten else s
  if expanded.all isHexDigitJS then
    match expanded with
    | [a1, a2, b1, b2, c1, c2] =>
      some (((parseHexNat [a1, a2] : ℕ) : ℚ) / 255, ((parseHexNat [b1, b2] : ℕ) : ℚ) / 255,
            ((parseHexNat [c1, c2] : ℕ) : ℚ) / 255, 1)
    | [a1, a2, b1, b2, c1, c2, d1, d2] =>
      some (((parseHexNat [a1, a2] : ℕ) : ℚ) / 255, ((parseHexNat [b1, b2] : ℕ) : ℚ) / 255,
            ((parseHexNat [c1, c2] : ℕ) : ℚ) / 255, ((parseHexNat [d1, d2] : ℕ) : ℚ) / 255)
    | _ => none
  else none

/-- C2, at the failing input `"#000012"`: the code parses the six digits
to the number 0x12 = 18 and then dispatches on magnitude, landing in the
12-bit branch, so the constructor receives green 1/15 and blue 2/15;
byte grouping as the spec states would give green 0 and blue 18/255.
The accepted string is thus not decoded by digit grouping. -/
theorem C2_hex_string_leading_zero_bug :
    fromHexStringComponents "#000012" = Except.ok (0, 1/15, 2/15, 1) ∧
    specHexStringDecode "#000012" = some (0, 0, 18/255, 1) ∧
    ((1 : ℚ)/15 ≠ 0 ∧ (2 : ℚ)/15 ≠ 18/255) := by
  refine ⟨?_, ?_, by norm_num, by norm_num⟩
  · have h : fromHexStringComponents "#000012" =
        Except.ok ((((18 >>> 8) &&& 15 : ℕ) : ℚ) / 15, (((18 >>> 4) &&& 15 : ℕ) : ℚ) / 15,
          ((18 &&& 15 : ℕ) : ℚ) / 15, 1) := rfl
    rw [h]
    norm_num [show (18 >>> 8 &&& 15 : ℕ) = 0 from by decide,
      show (18 >>> 4 &&& 15 : ℕ) = 1 from by decide,
      show (18 &&& 15 : ℕ) = 2 from by decide]
  · have h : specHexStringDecode "#000012" =
        some (((0 : ℕ) : ℚ) / 255, ((0 : ℕ) : ℚ) / 255, ((18 : ℕ) : ℚ) / 255, 1) := rfl
    rw [h]
    norm_num

/-- Substring test ("the message mentions ..."): `p` occurs contiguously
inside `l`. -/
def strMentions (msg pat : String) : Bool :=
  msg.data.tails.any (fun t => pat.data.isPrefixOf t)

/-- C5: the deserialize validation table.  `"/"` is rejected by `JSON.parse`
with a message mentioning "not valid JSON"; `"{}"` fails with exactly
"Colors must be an array"; a color entry whose `components` is the number
5 fails with exactly "Components must be an array"; a 2-element
`components` fails with exactly "Components must have 3 or 4 values"; a
component value of -1 fails with exactly "Component values must be
numbers". -/
theorem C5_deserialize_validation :
    (ColorPalette.deserialize "/" = Except.error invalidJsonMsg ∧
      strMentions invalidJsonMsg "not valid JSON" = true) ∧
    ColorPalette.deserialize "\x7b\x7d" = Except.error "Colors must be an array" ∧
    ColorPalette.deserialize "\x7b\"colors\": [\x7b\"components\": 5\x7d]\x7d" =
      Except.error "Components must be an array" ∧
    ColorPalette.deserialize "\x7b\"colors\": [\x7b\"components\": [1, 2]\x7d]\x7d" =
      Except.error "Components must have 3 or 4 values" ∧
    ColorPalette.deserialize "\x7b\"colors\": [\x7b\"components\": [-1, 0, 0]\x7d]\x7d" =
      Except.error "Component values must be numbers" := by
  refine ⟨⟨?_, by decide⟩, ?_, ?_, ?_, ?_⟩
  · have hp : jsonParse "/" = Except.error invalidJsonMsg := by rfl
    simp only [ColorPalette.deserialize]
    rw [hp]
  · have hp : jsonParse "\x7b\x7d" = Except.ok (Json.obj []) := by rfl
    have hv : validatePalette (Json.obj []) = Except.error "Colors must be an array" := by rfl
    simp only [ColorPalette.deserialize]
    rw [hp]
    simp only [ColorPalette.deserializeJson]
    rw [hv]
  · have hp : jsonParse "\x7b\"colors\": [\x7b\"components\": 5\x7d]\x7d" =
        Except.ok (Json.obj [("colors", Json.arr [Json.obj [("components", Json.num 5)]])]) := by
      rfl
    have hv : validatePalette
        (Json.obj [("colors", Json.arr [Json.obj [("components", Json.num 5)]])]) =
        Except.error "Components must be an array" := by rfl
    simp only [ColorPalette.deserialize]
    rw [hp]
    simp only [ColorPalette.deserializeJson]
    rw [hv]
  · have hp : jsonParse "\x7b\"colors\": [\x7b\"components\": [1, 2]\x7d]\x7d" =
        Except.ok (Json.obj [("colors", Json.arr [Json.obj [("components",
          Json.arr [Json.num 1, Json.num 2])]])]) := by rfl
    have hv : validatePalette (Json.obj [("colors", Json.arr [Json.obj [("components",
        Json.arr [Json.num 1, Json.num 2])]])]) =
        Except.error "Components must have 3 or 4 values" := by rfl
    simp only [ColorPalette.deserialize]
    rw [hp]
    simp only [ColorPalette.deserializeJson]
    rw [hv]
  · have hp : jsonParse "\x7b\"colors\": [\x7b\"components\": [-1, 0, 0]\x7d]\x7d" =
        Except.ok (Json.obj [("colors", Json.arr [Json.obj [("components",
          Json.arr [Json.num (-1), Json.num 0, Json.num 0])]])]) := by rfl
    have hv : validatePalette (Json.obj [("colors", Json.arr [Json.obj [("components",
        Json.arr [Json.num (-1), Json.num 0, Json.num 0])]])]) =
        Except.error "Component values must be numbers" := by rfl
    simp only [ColorPalette.deserialize]
    rw [hp]
    simp only [ColorPalette.deserializeJson]
    rw [hv]

theorem lt_rpow_five_twelfths {a q : ℝ} (ha : 0 < a) (h : q ^ 12 < a ^ 5) :
    q < a ^ ((5 : ℝ) / 12) := by
  have e1 : ((5 : ℝ) / 12) * ((12 : ℕ) : ℝ) = ((5 : ℕ) : ℝ) := by norm_num
  have key : (a ^ ((5 : ℝ) / 12)) ^ (12 : ℕ) = a ^ (5 : ℕ) := by
    calc (a ^ ((5 : ℝ) / 12)) ^ (12 : ℕ)
        = a ^ (((5 : ℝ) / 12) * ((12 : ℕ) : ℝ)) := by
          rw [← Real.rpow_natCast (a ^ ((5 : ℝ) / 12)) 12, ← Real.rpow_mul ha.le]
      _ = a ^ ((5 : ℕ) : ℝ) := by rw [e1]
      _ = a ^ (5 : ℕ) := Real.rpow_natCast a 5
  by_contra hle
  push_neg at hle
  have hc : (a ^ ((5 : ℝ) / 12)) ^ (12 : ℕ) ≤ q ^ (12 : ℕ) :=
    pow_le_pow_left₀ (Real.rpow_nonneg ha.le _) hle 12
  rw [key] at hc
  linarith

theorem lt_rpow_twelve_fifths {a q : ℝ} (ha : 0 < a) (h : q ^ 5 < a ^ 12) :
    q < a ^ ((12 : ℝ) / 5) := by
  have e1 : ((12 : ℝ) / 5) * ((5 : ℕ) : ℝ) = ((12 : ℕ) : ℝ) := by norm_num
  have key : (a ^ ((12 : ℝ) / 5)) ^ (5 : ℕ) = a ^ (12 : ℕ) := by
    calc (a ^ ((12 : ℝ) / 5)) ^ (5 : ℕ)
        = a ^ (((12 : ℝ) / 5) * ((5 : ℕ) : ℝ)) := by
          rw [← Real.rpow_natCast (a ^ ((12 : ℝ) / 5)) 5, ← Real.rpow_mul ha.le]
      _ = a ^ ((12 : ℕ) : ℝ) := by rw [e1]
      _ = a ^ (12 : ℕ) := Real.rpow_natCast a 12
  by_contra hle
  push_neg at hle
  have hc : (a ^ ((12 : ℝ) / 5)) ^ (5 : ℕ) ≤ q ^ (5 : ℕ) :=
    pow_le_pow_left₀ (Real.rpow_nonneg ha.le _) hle 5
  rw [key] at hc
  linarith

theorem rpow_five_twelfths_lt {a q : ℝ} (ha : 0 ≤ a) (hq : 0 < q) (h : a ^ 5 < q ^ 12) :
    a ^ ((5 : ℝ) / 12) < q := by
  have e1 : ((5 : ℝ) / 12) * ((12 : ℕ) : ℝ) = ((5 : ℕ) : ℝ) := by norm_num
  have key : (a ^ ((5 : ℝ) / 12)) ^ (12 : ℕ) = a ^ (5 : ℕ) := by
    calc (a ^ ((5 : ℝ) / 12)) ^ (12 : ℕ)
        = a ^ (((5 : ℝ) / 12) * ((12 : ℕ) : ℝ)) := by
          rw [← Real.rpow_natCast (a ^ ((5 : ℝ) / 12)) 12, ← Real.rpow_mul ha]
      _ = a ^ ((5 : ℕ) : ℝ) := by rw [e1]
      _ = a ^ (5 : ℕ) := Real.rpow_natCast a 5
  by_contra hle
  push_neg at hle
  have hc : q ^ (12 : ℕ) ≤ (a ^ ((5 : ℝ) / 12)) ^ (12 : ℕ) := pow_le_pow_left₀ hq.le hle 12
  rw [key] at hc
  linarith

/-- C4 (amended): each composition of the transfer functions is exactly
the identity away from a narrow seam at the piecewise threshold, where the
two branch cutoffs disagree: the forward round trip is exact for
s ≤ 0.040449936 (= 12.92 · 0.0031308) and for s > 0.04045, and the
reverse round trip is exact for l ≤ 0.0031308 and for l ≥ 0.00313081.
Inside the forward seam the round-trip error reaches the order of 3e-8,
refuting the 1e-9 bound (see the counterexample at s = 0.04045). -/
theorem C4_transfer_inverse :
    (∀ l : ℝ, l ≤ 0.0031308 ∨ 0.00313081 ≤ l → sRGBToLinear (linearToSRGB l) = l) ∧
    (∀ s : ℝ, s ≤ 0.040449936 ∨ 0.04045 < s → linearToSRGB (sRGBToLinear s) = s) := by
  constructor
  · intro l hl
    rcases hl with h1 | h2
    · rw [linearToSRGB, if_pos h1, sRGBToLinear, if_pos (by linarith)]
      field_simp
    · have hgt : (0.0031308 : ℝ) < l := by linarith
      have hlpos : (0 : ℝ) < l := by linarith
      rw [linearToSRGB, if_neg (not_le.mpr hgt)]
      have hLb : (0.09545 / 1.055 : ℝ) < l ^ ((1 : ℝ) / 2.4) := by
        have hb1 : (0.09545 / 1.055 : ℝ) < (0.00313081 : ℝ) ^ ((5 : ℝ) / 12) :=
          lt_rpow_five_twelfths (by norm_num) (by norm_num)
        have hb2 : (0.00313081 : ℝ) ^ ((5 : ℝ) / 12) ≤ l ^ ((5 : ℝ) / 12) :=
          Real.rpow_le_rpow (by norm_num) h2 (by norm_num)
        rw [show ((1 : ℝ) / 2.4) = (5 : ℝ) / 12 by norm_num]
        linarith
      have hs' : (0.04045 : ℝ) < l ^ ((1 : ℝ) / 2.4) * 1.055 - 0.055 := by
        nlinarith [hLb]
      rw [sRGBToLinear, if_neg (not_le.mpr hs')]
      have harg : (l ^ ((1 : ℝ) / 2.4) * 1.055 - 0.055 + 0.055) / 1.055 = l ^ ((1 : ℝ) / 2.4) := by
        field_simp
      rw [harg, ← Real.rpow_mul hlpos.le, show ((1 : ℝ) / 2.4) * 2.4 = 1 by norm_num,
        Real.rpow_one]
  · intro s hs
    rcases hs with hlo | hhi
    · rw [sRGBToLinear, if_pos (by linarith),
        linearToSRGB, if_pos (by rw [div_le_iff₀ (by norm_num : (0:ℝ) < 12.92)]; linarith)]
      field_simp
    · rw [sRGBToLinear, if_neg (not_le.mpr hhi)]
      have hbpos : (0 : ℝ) < (s + 0.055) / 1.055 := div_pos (by linarith) (by norm_num)
      have hcb : (0.09545 / 1.055 : ℝ) < (s + 0.055) / 1.055 := by
        gcongr
        linarith
      have hlbig : (0.0031308 : ℝ) < ((s + 0.055) / 1.055) ^ (2.4 : ℝ) := by
        have hb1 : (0.0031308 : ℝ) < ((0.09545 / 1.055 : ℝ)) ^ ((12 : ℝ) / 5) :=
          lt_rpow_twelve_fifths (by norm_num) (by norm_num)
        have hb2 : ((0.09545 / 1.055 : ℝ)) ^ ((12 : ℝ) / 5) <
            ((s + 0.055) / 1.055) ^ ((12 : ℝ) / 5) :=
          Real.rpow_lt_rpow (by norm_num) hcb (by norm_num)
        rw [show (2.4 : ℝ) = (12 : ℝ) / 5 by norm_num]
        linarith
      rw [linearToSRGB, if_neg (not_le.mpr hlbig)]
      have harg : (((s + 0.055) / 1.055) ^ (2.4 : ℝ)) ^ ((1 : ℝ) / 2.4) =
          (s + 0.055) / 1.055 := by
        rw [← Real.rpow_mul hbpos.le, show (2.4 : ℝ) * (1 / 2.4) = 1 by norm_num, Real.rpow_one]
      rw [harg]
      field_simp

/-- Witness for C4: at s = 0.02, left of the seam, the forward round trip
is exact. -/
theorem C4_transfer_inverse_witness :
    ((0.02 : ℝ) ≤ 0.040449936 ∨ (0.04045 : ℝ) < 0.02) ∧
    linearToSRGB (sRGBToLinear 0.02) = 0.02 :=
  ⟨Or.inl (by norm_num), C4_transfer_inverse.2 0.02 (Or.inl (by norm_num))⟩

/-- Counterexample to C4 as stated: s = 0.04045 lies in [0,1], yet the
forward round trip errs by about 2.96e-8, exceeding the claimed 1e-9
tolerance: the forward linear branch output 0.04045 / 12.92 exceeds the
reverse threshold 0.0031308, so the power branch is applied backward. -/
theorem C4_counterexample :
    (0 : ℝ) ≤ 0.04045 ∧ (0.04045 : ℝ) ≤ 1 ∧
    |linearToSRGB (sRGBToLinear 0.04045) - 0.04045| > 1e-9 := by
  refine ⟨by norm_num, by norm_num, ?_⟩
  have h1 : sRGBToLinear (0.04045 : ℝ) = 0.04045 / 12.92 := by
    rw [sRGBToLinear, if_pos (by norm_num)]
  have hl : ¬ ((0.04045 / 12.92 : ℝ) ≤ 0.0031308) := by norm_num
  rw [h1, linearToSRGB, if_neg hl]
  have hup : (0.04045 / 12.92 : ℝ) ^ ((1 : ℝ) / 2.4) < (0.09545 - 1e-9) / 1.055 := by
    have h2 : (0.04045 / 12.92 : ℝ) ^ ((5 : ℝ) / 12) < (0.09545 - 1e-9) / 1.055 :=
      rpow_five_twelfths_lt (by positivity) (by norm_num) (by norm_num)
    rw [show ((1 : ℝ) / 2.4) = (5 : ℝ) / 12 by norm_num]
    exact h2
  have hlt : (0.04045 / 12.92 : ℝ) ^ ((1 : ℝ) / 2.4) * 1.055 - 0.055 - 0.04045 < -(1e-9) := by
    nlinarith [hup]
  have habs := neg_le_abs ((0.04045 / 12.92 : ℝ) ^ ((1 : ℝ) / 2.4) * 1.055 - 0.055 - 0.04045)
  linarith [habs, hlt]

theorem toJSON_getProp_components (c : Color) :
    c.toJSON.getProp "components" = some (Json.arr c.componentsJson) := by
  by_cases hn : jsTruthy c.name <;> simp [Color.toJSON, Json.getProp, hn]

theorem toJSON_getProp_name (c : Color) (h : c.name = none ∨ jsTruthy c.name = true) :
    c.toJSON.getProp "name" = c.name := by
  rcases h with h | h
  · simp [Color.toJSON, Json.getProp, h, jsTruthy]
  · cases hcn : c.name with
    | none => rw [hcn] at h; simp [jsTruthy] at h
    | some j =>
      rw [hcn] at h
      simp only [jsTruthy] at h
      simp [Color.toJSON, Json.getProp, jsTruthy, hcn, h]

theorem paletteToJSON_getProp_colors (p : ColorPalette) :
    p.toJSON.getProp "colors" = some (Json.arr (p.colors.map Color.toJSON)) := by
  by_cases hn : jsTruthy p.name <;> simp [ColorPalette.toJSON, Json.getProp, hn]

theorem paletteToJSON_getProp_name (p : ColorPalette)
    (h : p.name = none ∨ jsTruthy p.name = true) :
    p.toJSON.getProp "name" = p.name := by
  rcases h with h | h
  · simp [ColorPalette.toJSON, Json.getProp, h, jsTruthy]
  · cases hcn : p.name with
    | none => rw [hcn] at h; simp [jsTruthy] at h
    | some j =>
      rw [hcn] at h
      simp only [jsTruthy] at h
      simp [ColorPalette.toJSON, Json.getProp, jsTruthy, hcn, h]

theorem validate_toJSON_color {c : Color} (h0r : 0 ≤ c.linearRed) (h0g : 0 ≤ c.linearGreen)
    (h0b : 0 ≤ c.linearBlue) (h0o : 0 ≤ c.opacity) :
    validateColorComponent c.toJSON = Except.ok () := by
  have v1 : validateComponentValue (Json.num (roundToFourDecimalsQ c.linearRed)) =
      Except.ok () := by
    rw [validateComponentValue, if_neg (not_lt.mpr (roundToFourDecimalsQ_nonneg h0r))]
  have v2 : validateComponentValue (Json.num (roundToFourDecimalsQ c.linearGreen)) =
      Except.ok () := by
    rw [validateComponentValue, if_neg (not_lt.mpr (roundToFourDecimalsQ_nonneg h0g))]
  have v3 : validateComponentValue (Json.num (roundToFourDecimalsQ c.linearBlue)) =
      Except.ok () := by
    rw [validateComponentValue, if_neg (not_lt.mpr (roundToFourDecimalsQ_nonneg h0b))]
  have v4 : validateComponentValue (Json.num (roundToFourDecimalsQ c.opacity)) =
      Except.ok () := by
    rw [validateComponentValue, if_neg (not_lt.mpr (roundToFourDecimalsQ_nonneg h0o))]
  rw [validateColorComponent]
  simp only [toJSON_getProp_components]
  by_cases hop : c.opacity = 1
  · simp [Color.componentsJson, hop, v1, v2, v3]
    rfl
  · simp [Color.componentsJson, hop, v1, v2, v3, v4]
    rfl

theorem colorOfJson_toJSON {c : Color}
    (hname : c.name = none ∨ jsTruthy c.name = true)
    (hidr : roundToFourDecimals c.linearRed = c.linearRed)
    (hidg : roundToFourDecimals c.linearGreen = c.linearGreen)
    (hidb : roundToFourDecimals c.linearBlue = c.linearBlue)
    (hido : roundToFourDecimals c.opacity = c.opacity)
    (h0o : 0 ≤ c.opacity) (h1o : c.opacity ≤ 1) :
    colorOfJson c.toJSON = c := by
  have hnm := toJSON_getProp_name c hname
  have hcr : ((roundToFourDecimalsQ c.linearRed : ℚ) : ℝ) = c.linearRed := by
    rw [roundToFourDecimalsQ_cast, hidr]
  have hcg : ((roundToFourDecimalsQ c.linearGreen : ℚ) : ℝ) = c.linearGreen := by
    rw [roundToFourDecimalsQ_cast, hidg]
  have hcb : ((roundToFourDecimalsQ c.linearBlue : ℚ) : ℝ) = c.linearBlue := by
    rw [roundToFourDecimalsQ_cast, hidb]
  have hco : ((roundToFourDecimalsQ c.opacity : ℚ) : ℝ) = c.opacity := by
    rw [roundToFourDecimalsQ_cast, hido]
  have hclamp : clampOpacity c.opacity = c.opacity := clampOpacity_of_mem h0o h1o
  by_cases hop : c.opacity = 1
  · have hcomp : c.componentsJson = [Json.num (roundToFourDecimalsQ c.linearRed),
        Json.num (roundToFourDecimalsQ c.linearGreen),
        Json.num (roundToFourDecimalsQ c.linearBlue)] := by
      simp [Color.componentsJson, hop]
    show colorOfJson c.toJSON = Color.mk c.name c.linearRed c.linearGreen c.linearBlue c.opacity
    simp only [colorOfJson, toJSON_getProp_components, hcomp, hnm, jsNumberValue,
      List.getD_cons_zero, List.getD_cons_succ, Color.construct, if_true,
      Color.mk.injEq]
    refine ⟨trivial, ?_, ?_, ?_, ?_⟩
    · rw [hcr, hidr, hidr]
    · rw [hcg, hidg, hidg]
    · rw [hcb, hidb, hidb]
    · simp only [List.get?_cons_succ, List.get?_nil]
      rw [roundToFourDecimals_one, clampOpacity_of_mem (by norm_num) (by norm_num),
        roundToFourDecimals_one, hop]
  · have hcomp : c.componentsJson = [Json.num (roundToFourDecimalsQ c.linearRed),
        Json.num (roundToFourDecimalsQ c.linearGreen),
        Json.num (roundToFourDecimalsQ c.linearBlue),
        Json.num (roundToFourDecimalsQ c.opacity)] := by
      simp [Color.componentsJson, hop]
    show colorOfJson c.toJSON = Color.mk c.name c.linearRed c.linearGreen c.linearBlue c.opacity
    simp only [colorOfJson, toJSON_getProp_components, hcomp, hnm, jsNumberValue,
      List.getD_cons_zero, List.getD_cons_succ, Color.construct, if_true,
      Color.mk.injEq]
    refine ⟨trivial, ?_, ?_, ?_, ?_⟩
    · rw [hcr, hidr, hidr]
    · rw [hcg, hidg, hidg]
    · rw [hcb, hidb, hidb]
    · simp only [List.get?_cons_succ, List.get?_cons_zero]
      rw [hco, hido, hclamp, hido]

/-- A `Color` built by the public constructor from non-linear input
(`isLinear` false), from a tuple `(name, red, green, blue, opacity)`. -/
noncomputable def colorFromNonlinearEntry (e : Option Json × ℝ × ℝ × ℝ × ℝ) : Color :=
  Color.construct e.1 e.2.1 e.2.2.1 e.2.2.2.1 e.2.2.2.2 false

theorem construct_false_linearRed (n : Option Json) (r g b o : ℝ) :
    (Color.construct n r g b o false).linearRed = roundToFourDecimals (sRGBToLinear r) := rfl

theorem construct_false_linearGreen (n : Option Json) (r g b o : ℝ) :
    (Color.construct n r g b o false).linearGreen = roundToFourDecimals (sRGBToLinear g) := rfl

theorem construct_false_linearBlue (n : Option Json) (r g b o : ℝ) :
    (Color.construct n r g b o false).linearBlue = roundToFourDecimals (sRGBToLinear b) := rfl

theorem construct_opacity_eq (n : Option Json) (r g b o : ℝ) (lin : Bool) :
    (Color.construct n r g b o lin).opacity = roundToFourDecimals (clampOpacity o) := rfl

theorem construct_name_eq (n : Option Json) (r g b o : ℝ) (lin : Bool) :
    (Color.construct n r g b o lin).name = n := rfl

theorem roundtrip_colors (entries : List (Option Json × ℝ × ℝ × ℝ × ℝ))
    (hnames : ∀ e ∈ entries, e.1 = none ∨ jsTruthy e.1 = true)
    (hnonneg : ∀ e ∈ entries, 0 ≤ e.2.1 ∧ 0 ≤ e.2.2.1 ∧ 0 ≤ e.2.2.2.1) :
    (((entries.map colorFromNonlinearEntry).map Color.toJSON).forM validateColorComponent =
      Except.ok ()) ∧
    ((entries.map colorFromNonlinearEntry).map Color.toJSON).map colorOfJson =
      entries.map colorFromNonlinearEntry := by
  induction entries with
  | nil => exact ⟨rfl, rfl⟩
  | cons e es ih =>
    obtain ⟨ih1, ih2⟩ := ih (fun x hx => hnames x (List.mem_cons_of_mem e hx))
      (fun x hx => hnonneg x (List.mem_cons_of_mem e hx))
    have hh := hnames e (List.mem_cons_self e es)
    obtain ⟨hr, hg, hb⟩ := hnonneg e (List.mem_cons_self e es)
    have h0r : 0 ≤ (colorFromNonlinearEntry e).linearRed := by
      rw [colorFromNonlinearEntry, construct_false_linearRed]
      exact roundToFourDecimals_nonneg (sRGBToLinear_nonneg hr)
    have h0g : 0 ≤ (colorFromNonlinearEntry e).linearGreen := by
      rw [colorFromNonlinearEntry, construct_false_linearGreen]
      exact roundToFourDecimals_nonneg (sRGBToLinear_nonneg hg)
    have h0b : 0 ≤ (colorFromNonlinearEntry e).linearBlue := by
      rw [colorFromNonlinearEntry, construct_false_linearBlue]
      exact roundToFourDecimals_nonneg (sRGBToLinear_nonneg hb)
    have h0o : 0 ≤ (colorFromNonlinearEntry e).opacity := by
      rw [colorFromNonlinearEntry, construct_opacity_eq]
      exact roundToFourDecimals_nonneg (clampOpacity_nonneg _)
    have h1o : (colorFromNonlinearEntry e).opacity ≤ 1 := by
      rw [colorFromNonlinearEntry, construct_opacity_eq]
      exact roundToFourDecimals_le_one (clampOpacity_le_one _)
    have hidr : roundToFourDecimals (colorFromNonlinearEntry e).linearRed =
        (colorFromNonlinearEntry e).linearRed := by
      rw [colorFromNonlinearEntry, construct_false_linearRed, roundToFourDecimals_idem]
    have hidg : roundToFourDecimals (colorFromNonlinearEntry e).linearGreen =
        (colorFromNonlinearEntry e).linearGreen := by
      rw [colorFromNonlinearEntry, construct_false_linearGreen, roundToFourDecimals_idem]
    have hidb : roundToFourDecimals (colorFromNonlinearEntry e).linearBlue =
        (colorFromNonlinearEntry e).linearBlue := by
      rw [colorFromNonlinearEntry, construct_false_linearBlue, roundToFourDecimals_idem]
    have hido : roundToFourDecimals (colorFromNonlinearEntry e).opacity =
        (colorFromNonlinearEntry e).opacity := by
      rw [colorFromNonlinearEntry, construct_opacity_eq, roundToFourDecimals_idem]
    have hname : (colorFromNonlinearEntry e).name = none ∨
        jsTruthy (colorFromNonlinearEntry e).name = true := by
      rw [colorFromNonlinearEntry, construct_name_eq]
      exact hh
    have hval := validate_toJSON_color h0r h0g h0b h0o
    have hbuild := colorOfJson_toJSON hname hidr hidg hidb hido h0o h1o
    constructor
    · simp only [List.map_cons, List.forM_cons', hval, ih1]
      rfl
    · simp only [List.map_cons, hbuild, ih2]

/-- C1 (amended): for a palette of colors constructed from non-linear
input with non-negative red/green/blue values, whose palette and color
names are each absent or truthy, deserializing the serialized document
returns the palette exactly: same `name`, same number of colors in the
same order, and per color the same `name`, `opacity` and
`linearComponents` (exact equality of the stored state, hence equality to
4 decimal places). -/
theorem C1_serialize_roundtrip (pname : Option Json)
    (entries : List (Option Json × ℝ × ℝ × ℝ × ℝ))
    (hpname : pname = none ∨ jsTruthy pname = true)
    (hnames : ∀ e ∈ entries, e.1 = none ∨ jsTruthy e.1 = true)
    (hnonneg : ∀ e ∈ entries, 0 ≤ e.2.1 ∧ 0 ≤ e.2.2.1 ∧ 0 ≤ e.2.2.2.1) :
    ColorPalette.deserializeJson
      (ColorPalette.construct pname (entries.map colorFromNonlinearEntry)).serialize =
    Except.ok (ColorPalette.construct pname (entries.map colorFromNonlinearEntry)) := by
  obtain ⟨hval, hmap⟩ := roundtrip_colors entries hnames hnonneg
  have hname : (ColorPalette.construct pname (entries.map colorFromNonlinearEntry)).name = none ∨
      jsTruthy (ColorPalette.construct pname (entries.map colorFromNonlinearEntry)).name =
        true := hpname
  have hgn := paletteToJSON_getProp_name _ hname
  have hvp : validatePalette (ColorPalette.construct pname
      (entries.map colorFromNonlinearEntry)).toJSON = Except.ok () := by
    simp only [validatePalette, paletteToJSON_getProp_colors, ColorPalette.construct]
    exact hval
  have hgn2 : (ColorPalette.mk pname (entries.map colorFromNonlinearEntry)).toJSON.getProp
      "name" = pname := hgn
  have hb : paletteOfJson (ColorPalette.construct pname
      (entries.map colorFromNonlinearEntry)).toJSON =
      ColorPalette.construct pname (entries.map colorFromNonlinearEntry) := by
    simp only [paletteOfJson, paletteToJSON_getProp_colors, ColorPalette.construct, hgn2]
    rw [hmap]
  show ColorPalette.deserializeJson
    (ColorPalette.construct pname (entries.map colorFromNonlinearEntry)).toJSON = _
  simp only [ColorPalette.deserializeJson, hvp, hb]

/-- Witness for C1: a one-color palette with truthy names and
non-negative non-linear input round-trips to itself. -/
theorem C1_serialize_roundtrip_witness :
    ((some (Json.str "pal") : Option Json) = none ∨
      jsTruthy (some (Json.str "pal")) = true) ∧
    ColorPalette.deserializeJson
      (ColorPalette.construct (some (Json.str "pal"))
        ([((some (Json.str "c1") : Option Json), (0.5 : ℝ), (0.25 : ℝ), (0 : ℝ), (0.5 : ℝ))].map
          colorFromNonlinearEntry)).serialize =
      Except.ok (ColorPalette.construct (some (Json.str "pal"))
        ([((some (Json.str "c1") : Option Json), (0.5 : ℝ), (0.25 : ℝ), (0 : ℝ), (0.5 : ℝ))].map
          colorFromNonlinearEntry)) :=
  ⟨Or.inr rfl,
   C1_serialize_roundtrip (some (Json.str "pal"))
     [((some (Json.str "c1") : Option Json), (0.5 : ℝ), (0.25 : ℝ), (0 : ℝ), (0.5 : ℝ))]
     (Or.inr rfl)
     (fun e he => by rw [List.mem_singleton] at he; subst he; exact Or.inr rfl)
     (fun e he => by
       rw [List.mem_singleton] at he
       subst he
       exact ⟨by norm_num, by norm_num, by norm_num⟩)⟩

/-- Counterexample to C1 as stated: a color constructed from the
non-linear input red = -1 stores a negative linear component, and
deserializing the serialized palette then throws "Component values must
be numbers" instead of returning a palette. -/
theorem C1_counterexample :
    ColorPalette.deserializeJson
      (ColorPalette.construct none [Color.construct none (-1) 0 0 1 false]).serialize =
      Except.error "Component values must be numbers" := by
  have hop : (Color.construct none (-1) 0 0 1 false).opacity = 1 := by
    rw [construct_opacity_eq, clampOpacity_of_mem (by norm_num) (by norm_num),
      roundToFourDecimals_one]
  have hlr : (Color.construct none (-1) 0 0 1 false).linearRed = -0.0774 := by
    rw [construct_false_linearRed, sRGBToLinear, if_pos (by norm_num), roundToFourDecimals,
      mathRound_eq ((-1 : ℝ) / 12.92 * 10000) (-774) (by norm_num) (by norm_num)]
    norm_num
  have hq : roundToFourDecimalsQ (Color.construct none (-1) 0 0 1 false).linearRed =
      -774 / 10000 := by
    rw [hlr, roundToFourDecimalsQ,
      mathRound_eq ((-0.0774 : ℝ) * 10000) (-774) (by norm_num) (by norm_num)]
    norm_num
  have hv1 : validateComponentValue (Json.num (roundToFourDecimalsQ
      (Color.construct none (-1) 0 0 1 false).linearRed)) =
      Except.error "Component values must be numbers" := by
    rw [hq, validateComponentValue, if_pos (by norm_num)]
  have hcomp : (Color.construct none (-1) 0 0 1 false).componentsJson =
      [Json.num (roundToFourDecimalsQ (Color.construct none (-1) 0 0 1 false).linearRed),
       Json.num (roundToFourDecimalsQ (Color.construct none (-1) 0 0 1 false).linearGreen),
       Json.num (roundToFourDecimalsQ (Color.construct none (-1) 0 0 1 false).linearBlue)] := by
    simp [Color.componentsJson, hop]
  have hvc : validateColorComponent (Color.construct none (-1) 0 0 1 false).toJSON =
      Except.error "Component values must be numbers" := by
    simp only [validateColorComponent, toJSON_getProp_components, hcomp]
    simp [hv1]
    rfl
  have hvp : validatePalette
      (ColorPalette.construct none [Color.construct none (-1) 0 0 1 false]).toJSON =
      Except.error "Component values must be numbers" := by
    simp only [validatePalette, paletteToJSON_getProp_colors, ColorPalette.construct,
      List.map_cons, List.map_nil, List.forM_cons', hvc]
    rfl
  show ColorPalette.deserializeJson
    (ColorPalette.construct none [Color.construct none (-1) 0 0 1 false]).toJSON = _
  simp only [ColorPalette.deserializeJson, hvp]

/-- A JavaScript number including the non-finite IEEE-754 elements: `NaN`,
`Infinity`, `-Infinity`, or a finite value (modelled, as elsewhere in this
file, by an exact real).  `typeof` yields `'number'` for all four. -/
inductive JSNumber where
  | nan : JSNumber
  | posInf : JSNumber
  | negInf : JSNumber
  | finite (x : ℝ) : JSNumber

noncomputable instance : DecidableEq JSNumber := fun a b => Classical.propDecidable (a = b)

/-- ECMAScript addition on possibly non-finite numbers: `NaN` is
absorbing, opposite infinities give `NaN`, an infinity plus a finite
value keeps the infinity. -/
noncomputable def JSNumber.add : JSNumber → JSNumber → JSNumber
  | nan, _ => nan
  | _, nan => nan
  | posInf, negInf => nan
  | negInf, posInf => nan
  | posInf, _ => posInf
  | _, posInf => posInf
  | negInf, _ => negInf
  | _, negInf => negInf
  | finite x, finite y => finite (x + y)

/-- ECMAScript multiplication: `NaN` absorbing, infinity times a nonzero
value follows the sign rule, infinity times zero is `NaN`. -/
noncomputable def JSNumber.mul : JSNumber → JSNumber → JSNumber
  | nan, _ => nan
  | _, nan => nan
  | posInf, posInf => posInf
  | posInf, negInf => negInf
  | negInf, posInf => negInf
  | negInf, negInf => posInf
  | posInf, finite y => if y > 0 then posInf else if y < 0 then negInf else nan
  | finite x, posInf => if x > 0 then posInf else if x < 0 then negInf else nan
  | negInf, finite y => if y > 0 then negInf else if y < 0 then posInf else nan
  | finite x, negInf => if x > 0 then negInf else if x < 0 then posInf else nan
  | finite x, finite y => finite (x * y)

/-- ECMAScript division: `NaN` absorbing, infinity over infinity is
`NaN`, an infinity over a finite value follows the sign rule (division by
the positive zero keeps the infinity), a finite value over an infinity is
zero, and a nonzero finite value over zero gives a signed infinity. -/
noncomputable def JSNumber.div : JSNumber → JSNumber → JSNumber
  | nan, _ => nan
  | _, nan => nan
  | posInf, posInf => nan
  | posInf, negInf => nan
  | negInf, posInf => nan
  | negInf, negInf => nan
  | posInf, finite y => if y > 0 then posInf else if y < 0 then negInf else posInf
  | negInf, finite y => if y > 0 then negInf else if y < 0 then posInf else negInf
  | finite _, posInf => finite 0
  | finite _, negInf => finite 0
  | finite x, finite y =>
    if y = 0 then (if x > 0 then posInf else if x < 0 then negInf else nan)
    else finite (x / y)

/-- ECMAScript `<=` (via the abstract relational comparison): any
comparison with `NaN` is false; `-Infinity` is below everything else and
`Infinity` above. -/
noncomputable def JSNumber.le : JSNumber → JSNumber → Bool
  | nan, _ => false
  | _, nan => false
  | negInf, _ => true
  | _, posInf => true
  | posInf, _ => false
  | finite _, negInf => false
  | finite x, finite y => decide (x ≤ y)

/-- ECMAScript `Math.min`: `NaN` absorbing, `-Infinity` absorbing,
`Infinity` an identity. -/
noncomputable def JSNumber.min : JSNumber → JSNumber → JSNumber
  | nan, _ => nan
  | _, nan => nan
  | negInf, _ => negInf
  | _, negInf => negInf
  | posInf, b => b
  | a, posInf => a
  | finite x, finite y => finite (Min.min x y)

/-- ECMAScript `Math.max`: `NaN` absorbing, `Infinity` absorbing,
`-Infinity` an identity. -/
noncomputable def JSNumber.max : JSNumber → JSNumber → JSNumber
  | nan, _ => nan
  | _, nan => nan
  | posInf, _ => posInf
  | _, posInf => posInf
  | negInf, b => b
  | a, negInf => a
  | finite x, finite y => finite (Max.max x y)

/-- ECMAScript `**` specialized to the positive, non-odd-integer
exponents the source uses (`2.4`): `NaN ** 2.4 = NaN`,
`(±Infinity) ** 2.4 = Infinity`; finite bases follow the real model's
`rpow`, as in `sRGBToLinear`. -/
noncomputable def JSNumber.powPos (a : JSNumber) (e : ℝ) : JSNumber :=
  match a with
  | nan => nan
  | posInf => posInf
  | negInf => posInf
  | finite x => finite (x ^ e)

/-- ECMAScript `Math.round` on possibly non-finite numbers: `NaN` and
`±Infinity` are returned unchanged; finite values round half up. -/
noncomputable def jsMathRound : JSNumber → JSNumber
  | JSNumber.nan => JSNumber.nan
  | JSNumber.posInf => JSNumber.posInf
  | JSNumber.negInf => JSNumber.negInf
  | JSNumber.finite x => JSNumber.finite ((mathRound x : ℤ) : ℝ)

/-- src/index.js lines 1-4 over possibly non-finite numbers:
`Math.round(number * 10000) / 10000` composed from the ECMAScript
operations above. -/
noncomputable def jsRoundToFourDecimals (number : JSNumber) : JSNumber :=
  JSNumber.div (jsMathRound (JSNumber.mul number (JSNumber.finite 10000)))
    (JSNumber.finite 10000)

/-- src/index.js lines 6-12 over possibly non-finite numbers: the same
piecewise transfer function, with the comparison, division, addition and
exponentiation given their ECMAScript semantics. -/
noncomputable def jsSRGBToLinear (srgb : JSNumber) : JSNumber :=
  if JSNumber.le srgb (JSNumber.finite 0.04045) then
    JSNumber.div srgb (JSNumber.finite 12.92)
  else
    JSNumber.powPos
      (JSNumber.div (JSNumber.add srgb (JSNumber.finite 0.055)) (JSNumber.finite 1.055)) 2.4

/-- src/index.js line 22 over possibly non-finite numbers:
`Math.max(0, Math.min(1, value))`. -/
noncomputable def jsClampOpacity (value : JSNumber) : JSNumber :=
  JSNumber.max (JSNumber.finite 0) (JSNumber.min (JSNumber.finite 1) value)

/-- src/index.js lines 50-54 on a number argument:
`typeof value !== 'number'` is false for every JS number value,
non-finite ones included, so the check passes and nothing is thrown. -/
def jsValidateComponent (_value : JSNumber) : Except String Unit := Except.ok ()

/-- The `Color` state over possibly non-finite numbers (src/index.js
lines 56-61). -/
structure JSColor where
  name : Option Json
  linearRed : JSNumber
  linearGreen : JSNumber
  linearBlue : JSNumber
  opacity : JSNumber

/-- src/index.js lines 63-83, the constructor, over possibly non-finite
numbers; `validateComponent` passes on every `JSNumber` (see
`jsValidateComponent`), so no failure case remains. -/
noncomputable def JSColor.construct (name : Option Json) (red green blue opacity : JSNumber)
    (isLinear : Bool) : JSColor :=
  ⟨name,
   jsRoundToFourDecimals (if isLinear then red else jsSRGBToLinear red),
   jsRoundToFourDecimals (if isLinear then green else jsSRGBToLinear green),
   jsRoundToFourDecimals (if isLinear then blue else jsSRGBToLinear blue),
   jsRoundToFourDecimals (jsClampOpacity opacity)⟩

/-- src/index.js lines 147-153, `set red`, over possibly non-finite
numbers. -/
noncomputable def JSColor.setRed (c : JSColor) (value : JSNumber) : JSColor :=
  ⟨c.name, jsSRGBToLinear value, c.linearGreen, c.linearBlue, c.opacity⟩

/-- src/index.js lines 159-165, `set green`. -/
noncomputable def JSColor.setGreen (c : JSColor) (value : JSNumber) : JSColor :=
  ⟨c.name, c.linearRed, jsSRGBToLinear value, c.linearBlue, c.opacity⟩

/-- src/index.js lines 171-177, `set blue`. -/
noncomputable def JSColor.setBlue (c : JSColor) (value : JSNumber) : JSColor :=
  ⟨c.name, c.linearRed, c.linearGreen, jsSRGBToLinear value, c.opacity⟩

/-- src/index.js lines 183-189, `set opacity`: clamp, no rounding. -/
noncomputable def JSColor.setOpacity (c : JSColor) (value : JSNumber) : JSColor :=
  ⟨c.name, c.linearRed, c.linearGreen, c.linearBlue, jsClampOpacity value⟩

/-- One serialized `components` entry: `roundToFourDecimals` (src/index.js
lines 211-213) returns `NaN` and `±Infinity` unchanged (see
`jsRoundToFourDecimals`), and `JSON.stringify` then renders any
non-finite number as `null` (ECMAScript JSON serialization); a finite
stored value is rounded and printed exactly. -/
noncomputable def jsComponentEntry (n : JSNumber) : Json :=
  match n with
  | JSNumber.finite x => Json.num (roundToFourDecimalsQ x)
  | _ => Json.null

/-- src/index.js lines 210-218 over possibly non-finite numbers: the
serialized `components` array (the `!==` test against 1 is true for every
non-finite stored opacity). -/
noncomputable def JSColor.componentsJson (c : JSColor) : List Json :=
  [jsComponentEntry c.linearRed, jsComponentEntry c.linearGreen,
   jsComponentEntry c.linearBlue]
  ++ (if c.opacity ≠ JSNumber.finite 1 then [jsComponentEntry c.opacity] else [])

theorem roundToFourDecimals_zero : roundToFourDecimals (0 : ℝ) = 0 := by
  rw [roundToFourDecimals, mathRound_eq ((0 : ℝ) * 10000) 0 (by norm_num) (by norm_num)]
  norm_num

theorem jsRoundToFourDecimals_finite (x : ℝ) :
    jsRoundToFourDecimals (JSNumber.finite x) = JSNumber.finite (roundToFourDecimals x) := by
  show JSNumber.div (JSNumber.finite ((mathRound (x * 10000) : ℤ) : ℝ)) (JSNumber.finite 10000)
    = JSNumber.finite (roundToFourDecimals x)
  show (if (10000 : ℝ) = 0 then _ else
      JSNumber.finite (((mathRound (x * 10000) : ℤ) : ℝ) / 10000)) = _
  rw [if_neg (by norm_num)]
  rfl

theorem jsRoundToFourDecimals_posInf :
    jsRoundToFourDecimals JSNumber.posInf = JSNumber.posInf := by
  have h1 : JSNumber.mul JSNumber.posInf (JSNumber.finite 10000) = JSNumber.posInf := by
    show (if (10000 : ℝ) > 0 then JSNumber.posInf else
      if (10000 : ℝ) < 0 then JSNumber.negInf else JSNumber.nan) = JSNumber.posInf
    rw [if_pos (by norm_num)]
  show JSNumber.div (jsMathRound (JSNumber.mul JSNumber.posInf (JSNumber.finite 10000)))
    (JSNumber.finite 10000) = JSNumber.posInf
  rw [h1]
  show (if (10000 : ℝ) > 0 then JSNumber.posInf else
    if (10000 : ℝ) < 0 then JSNumber.negInf else JSNumber.posInf) = JSNumber.posInf
  rw [if_pos (by norm_num)]

theorem jsRoundToFourDecimals_negInf :
    jsRoundToFourDecimals JSNumber.negInf = JSNumber.negInf := by
  have h1 : JSNumber.mul JSNumber.negInf (JSNumber.finite 10000) = JSNumber.negInf := by
    show (if (10000 : ℝ) > 0 then JSNumber.negInf else
      if (10000 : ℝ) < 0 then JSNumber.posInf else JSNumber.nan) = JSNumber.negInf
    rw [if_pos (by norm_num)]
  show JSNumber.div (jsMathRound (JSNumber.mul JSNumber.negInf (JSNumber.finite 10000)))
    (JSNumber.finite 10000) = JSNumber.negInf
  rw [h1]
  show (if (10000 : ℝ) > 0 then JSNumber.negInf else
    if (10000 : ℝ) < 0 then JSNumber.posInf else JSNumber.negInf) = JSNumber.negInf
  rw [if_pos (by norm_num)]

theorem jsSRGBToLinear_posInf : jsSRGBToLinear JSNumber.posInf = JSNumber.posInf := by
  have h1 : JSNumber.div (JSNumber.add JSNumber.posInf (JSNumber.finite 0.055))
      (JSNumber.finite 1.055) = JSNumber.posInf := by
    show (if (1.055 : ℝ) > 0 then JSNumber.posInf else
      if (1.055 : ℝ) < 0 then JSNumber.negInf else JSNumber.posInf) = JSNumber.posInf
    rw [if_pos (by norm_num)]
  show JSNumber.powPos (JSNumber.div (JSNumber.add JSNumber.posInf (JSNumber.finite 0.055))
    (JSNumber.finite 1.055)) 2.4 = JSNumber.posInf
  rw [h1]
  rfl

theorem jsSRGBToLinear_negInf : jsSRGBToLinear JSNumber.negInf = JSNumber.negInf := by
  show JSNumber.div JSNumber.negInf (JSNumber.finite 12.92) = JSNumber.negInf
  show (if (12.92 : ℝ) > 0 then JSNumber.negInf else
    if (12.92 : ℝ) < 0 then JSNumber.posInf else JSNumber.negInf) = JSNumber.negInf
  rw [if_pos (by norm_num)]

theorem jsSRGBToLinear_finite (x : ℝ) :
    jsSRGBToLinear (JSNumber.finite x) = JSNumber.finite (sRGBToLinear x) := by
  rw [jsSRGBToLinear, sRGBToLinear]
  by_cases h : x ≤ 0.04045
  · rw [if_pos (by show decide (x ≤ (0.04045 : ℝ)) = true; simpa using h), if_pos h]
    show (if (12.92 : ℝ) = 0 then _ else JSNumber.finite (x / 12.92)) = _
    rw [if_neg (by norm_num)]
  · rw [if_neg (by show ¬ decide (x ≤ (0.04045 : ℝ)) = true; simpa using h), if_neg h]
    have h1 : JSNumber.div (JSNumber.add (JSNumber.finite x) (JSNumber.finite 0.055))
        (JSNumber.finite 1.055) = JSNumber.finite ((x + 0.055) / 1.055) := by
      show (if (1.055 : ℝ) = 0 then _ else JSNumber.finite ((x + 0.055) / 1.055)) = _
      rw [if_neg (by norm_num)]
    show JSNumber.powPos (JSNumber.div (JSNumber.add (JSNumber.finite x)
      (JSNumber.finite 0.055)) (JSNumber.finite 1.055)) 2.4 = _
    rw [h1]
    rfl

theorem jsClampOpacity_posInf : jsClampOpacity JSNumber.posInf = JSNumber.finite 1 := by
  show JSNumber.finite (Max.max 0 1) = JSNumber.finite 1
  rw [max_eq_right (by norm_num : (0 : ℝ) ≤ 1)]

theorem jsClampOpacity_negInf : jsClampOpacity JSNumber.negInf = JSNumber.finite 0 := rfl

theorem jsClampOpacity_finite (x : ℝ) :
    jsClampOpacity (JSNumber.finite x) = JSNumber.finite (clampOpacity x) := rfl

/-- C10 (amended): a non-finite number passed to a write path throws
nothing (the `typeof` check passes), and it propagates into the stored
state through every red/green/blue write — constructor in either mode and
per-channel setters — with the stored non-finite component then
serialized as `null`; through the opacity write paths only `NaN`
propagates, while `Infinity` and `-Infinity` are clamped by
`Math.max(0, Math.min(1, ·))` to the finite values 1 and 0. -/
theorem C10_nonfinite_propagation (n : JSNumber)
    (hn : n = JSNumber.nan ∨ n = JSNumber.posInf ∨ n = JSNumber.negInf) :
    (jsValidateComponent n = Except.ok ()) ∧
    (∀ (name : Option Json) (g b o : JSNumber) (lin : Bool),
      (JSColor.construct name n g b o lin).linearRed = n ∧
      (JSColor.construct name g n b o lin).linearGreen = n ∧
      (JSColor.construct name g b n o lin).linearBlue = n) ∧
    (∀ c : JSColor,
      (c.setRed n).linearRed = n ∧ (c.setGreen n).linearGreen = n ∧
      (c.setBlue n).linearBlue = n) ∧
    (∀ (name : Option Json) (r g b : JSNumber) (lin : Bool),
      (JSColor.construct name r g b n lin).opacity =
        if n = JSNumber.nan then JSNumber.nan
        else if n = JSNumber.posInf then JSNumber.finite 1 else JSNumber.finite 0) ∧
    (∀ c : JSColor, (c.setOpacity n).opacity =
        if n = JSNumber.nan then JSNumber.nan
        else if n = JSNumber.posInf then JSNumber.finite 1 else JSNumber.finite 0) ∧
    (∀ c : JSColor, c.linearRed = n → c.componentsJson.getD 0 Json.null = Json.null) := by
  rcases hn with h | h | h <;> subst h
  · refine ⟨rfl, ?_, ?_, ?_, ?_, ?_⟩
    · intro name g b o lin
      cases lin
      · exact ⟨rfl, rfl, rfl⟩
      · exact ⟨rfl, rfl, rfl⟩
    · intro c
      exact ⟨rfl, rfl, rfl⟩
    · intro name r g b lin
      rw [if_pos rfl]
      rfl
    · intro c
      rw [if_pos rfl]
      rfl
    · intro c hc
      simp [JSColor.componentsJson, hc, jsComponentEntry]
  · refine ⟨rfl, ?_, ?_, ?_, ?_, ?_⟩
    · intro name g b o lin
      cases lin
      · refine ⟨?_, ?_, ?_⟩ <;>
        · show jsRoundToFourDecimals (jsSRGBToLinear JSNumber.posInf) = JSNumber.posInf
          rw [jsSRGBToLinear_posInf, jsRoundToFourDecimals_posInf]
      · refine ⟨?_, ?_, ?_⟩ <;>
        · show jsRoundToFourDecimals JSNumber.posInf = JSNumber.posInf
          rw [jsRoundToFourDecimals_posInf]
    · intro c
      refine ⟨?_, ?_, ?_⟩ <;>
      · show jsSRGBToLinear JSNumber.posInf = JSNumber.posInf
        rw [jsSRGBToLinear_posInf]
    · intro name r g b lin
      rw [if_neg (by simp), if_pos rfl]
      show jsRoundToFourDecimals (jsClampOpacity JSNumber.posInf) = JSNumber.finite 1
      rw [jsClampOpacity_posInf, jsRoundToFourDecimals_finite, roundToFourDecimals_one]
    · intro c
      rw [if_neg (by simp), if_pos rfl]
      show jsClampOpacity JSNumber.posInf = JSNumber.finite 1
      rw [jsClampOpacity_posInf]
    · intro c hc
      simp [JSColor.componentsJson, hc, jsComponentEntry]
  · refine ⟨rfl, ?_, ?_, ?_, ?_, ?_⟩
    · intro name g b o lin
      cases lin
      · refine ⟨?_, ?_, ?_⟩ <;>
        · show jsRoundToFourDecimals (jsSRGBToLinear JSNumber.negInf) = JSNumber.negInf
          rw [jsSRGBToLinear_negInf, jsRoundToFourDecimals_negInf]
      · refine ⟨?_, ?_, ?_⟩ <;>
        · show jsRoundToFourDecimals JSNumber.negInf = JSNumber.negInf
          rw [jsRoundToFourDecimals_negInf]
    · intro c
      refine ⟨?_, ?_, ?_⟩ <;>
      · show jsSRGBToLinear JSNumber.negInf = JSNumber.negInf
        rw [jsSRGBToLinear_negInf]
    · intro name r g b lin
      rw [if_neg (by simp), if_neg (by simp)]
      show jsRoundToFourDecimals (jsClampOpacity JSNumber.negInf) = JSNumber.finite 0
      rw [jsClampOpacity_negInf, jsRoundToFourDecimals_finite, roundToFourDecimals_zero]
    · intro c
      rw [if_neg (by simp), if_neg (by simp)]
      show jsClampOpacity JSNumber.negInf = JSNumber.finite 0
      rw [jsClampOpacity_negInf]
    · intro c hc
      simp [JSColor.componentsJson, hc, jsComponentEntry]

/-- Witness for C10: constructing a non-linear color with red `NaN`
throws nothing and stores `NaN` in the linear red channel. -/
theorem C10_nonfinite_propagation_witness :
    (JSNumber.nan = JSNumber.nan ∨ JSNumber.nan = JSNumber.posInf ∨
      JSNumber.nan = JSNumber.negInf) ∧
    (JSColor.construct none JSNumber.nan (JSNumber.finite 0) (JSNumber.finite 0)
      (JSNumber.finite 1) false).linearRed = JSNumber.nan :=
  ⟨Or.inl rfl,
   ((C10_nonfinite_propagation JSNumber.nan (Or.inl rfl)).2.1 none (JSNumber.finite 0)
      (JSNumber.finite 0) (JSNumber.finite 1) false).1⟩

/-- Counterexample to C10 as stated: `Infinity` passed as opacity does
not propagate into the stored state — `Math.min(1, Infinity)` is 1, so
the constructor stores the finite value 1. -/
theorem C10_counterexample :
    (JSColor.construct none (JSNumber.finite 0) (JSNumber.finite 0) (JSNumber.finite 0)
      JSNumber.posInf true).opacity = JSNumber.finite 1 ∧
    JSNumber.finite 1 ≠ JSNumber.posInf := by
  constructor
  · show jsRoundToFourDecimals (jsClampOpacity JSNumber.posInf) = JSNumber.finite 1
    rw [jsClampOpacity_posInf, jsRoundToFourDecimals_finite, roundToFourDecimals_one]
  · simp
